/-
Verification of the fetch-and-extract engine of the marketplace/maps
scraping system: a shallow embedding of the Python sources under src/
(parsers/base.py, parsers/marketplace/{base_marketplace,uzum,wildberries,
ozon}.py, parsers/maps/{base_maps,twogis}.py, models/data_models.py,
bot/telegram_bot.py where it constructs the canonical Product model),
together with theorems settling the specification claims.

Conventions of the embedding:
* Python floats are modelled as rationals (ℚ); every arithmetic fact
  proved here is insensitive to binary rounding (values compared are
  either equal or far apart).
* Python exceptions are modelled with `Except PyExc`; a `try/except`
  of the source becomes a total handler at the same place.
* BeautifulSoup documents are modelled as a tree of tag/text nodes;
  `find`/`find_all` are pre-order searches over descendants, and a
  callable class filter is applied to each class string of the tag,
  mirroring bs4's per-item matching of multi-valued attributes.
-/
import Mathlib

set_option maxRecDepth 4000

/-! ## Python primitives: strings, truthiness, floats -/

/-- Whitespace recognised by Python `str.strip()` / `\s` (ASCII part;
the sources only ever strip ASCII whitespace). -/
def isPySpace (c : Char) : Bool :=
  c = ' ' || c = '\t' || c = '\n' || c = '\r' || c = '\x0b' || c = '\x0c'

/-- Python `str.strip()`. -/
def pyStrip (s : String) : String :=
  String.mk (((s.data.dropWhile isPySpace).reverse.dropWhile isPySpace).reverse)

/-- Python `str.lower()` (ASCII range; non-ASCII letters never compare
equal to the ASCII search patterns used by the parsers). -/
def pyLower (s : String) : String :=
  String.mk (s.data.map Char.toLower)

/-- Substring test on character lists (Python `pat in s`). -/
def listContainsSub (pat : List Char) : List Char → Bool
  | [] => decide (pat = [])
  | c :: cs => pat.isPrefixOf (c :: cs) || listContainsSub pat cs

/-- Python `pat in s` for strings. -/
def strContainsSub (s pat : String) : Bool :=
  listContainsSub pat.data s.data

/-- Does the string contain a decimal digit (`re.search(r'\d', s)`)? -/
def hasDigit (s : String) : Bool :=
  s.data.any Char.isDigit

/-- Numeric value of a list of decimal digit characters. -/
def digitsVal (l : List Char) : Nat :=
  l.foldl (fun a c => 10 * a + (c.toNat - 48)) 0

/-- Python `float(s)` on the cleaned numeric strings produced by the
parsers: optional sign, integer digits, optional fractional part.
`none` models `ValueError`.  (Exponent and inf/nan forms are never fed
to `float` by this code base: every call site first strips the input
down to digits, whitespace, `,` and `.`.) -/
def pyFloatRepr (s : String) : Option (Bool × Nat × Nat × Nat) :=
  let t := (pyStrip s).data
  let signed : Bool × List Char :=
    match t with
    | c :: r => if c = '-' then (true, r) else if c = '+' then (false, r) else (false, c :: r)
    | [] => (false, [])
  let ip := signed.2.takeWhile Char.isDigit
  let rest := signed.2.dropWhile Char.isDigit
  match rest with
  | [] => if ip.isEmpty then none else some (signed.1, digitsVal ip, 0, 0)
  | '.' :: r2 =>
    let fp := r2.takeWhile Char.isDigit
    let rest2 := r2.dropWhile Char.isDigit
    if rest2.isEmpty then
      if ip.isEmpty && fp.isEmpty then none
      else some (signed.1, digitsVal ip, digitsVal fp, fp.length)
    else none
  | _ => none

/-- Rational value of a parsed decimal: sign, integer part, fractional
digits value, number of fractional digits. -/
def ratOfRepr (r : Bool × Nat × Nat × Nat) : ℚ :=
  let mag : ℚ :=
    if r.2.2.2 = 0 then (r.2.1 : ℚ)
    else (r.2.1 : ℚ) + (r.2.2.1 : ℚ) / ((10 : ℚ) ^ r.2.2.2)
  if r.1 then -mag else mag

/-- Python `float(s)` on the cleaned numeric strings produced by the
parsers (see `pyFloatRepr`). -/
def pyFloat (s : String) : Option ℚ :=
  (pyFloatRepr s).map ratOfRepr

/-- The decimal digit characters. -/
def digitChar (n : Nat) : Char :=
  ['0', '1', '2', '3', '4', '5', '6', '7', '8', '9'].getD n '0'

/-- Decimal rendering of a natural number (fuel-indexed so that it
unfolds by iota reduction). -/
def natStrAux : Nat → Nat → List Char
  | 0, _ => []
  | fuel + 1, n =>
    if n < 10 then [digitChar n]
    else natStrAux fuel (n / 10) ++ [digitChar (n % 10)]

/-- Python `str(n)` for a natural number. -/
def pyStrOfNat (n : Nat) : String := String.mk (natStrAux (n + 1) n)

/-! ## Python values and records -/

/-- Python values as they occur in the raw record dictionaries. -/
inductive PyVal where
  | str (s : String)
  | int (n : Int)
  | float (q : ℚ)
  | bool (b : Bool)
  | none
deriving DecidableEq, Repr

/-- A raw record: an insertion-ordered string-keyed dictionary. -/
abbrev RawRecord := List (String × PyVal)

/-- Python `d.get(k)` (first binding wins; keys are unique in practice). -/
def lookupKey (d : RawRecord) (k : String) : Option PyVal :=
  (d.find? (fun p => p.1 = k)).map (fun p => p.2)

/-- Python `k in d`. -/
def hasKey (d : RawRecord) (k : String) : Bool :=
  (lookupKey d k).isSome

/-- Python `d[k] = v` (update in place, else append preserving order). -/
def setKey (d : RawRecord) (k : String) (v : PyVal) : RawRecord :=
  if hasKey d k then d.map (fun p => if p.1 = k then (k, v) else p)
  else d ++ [(k, v)]

/-- Python truthiness of a value. -/
def pyTruthy : PyVal → Bool
  | .str s => s ≠ ""
  | .int n => n ≠ 0
  | .float q => q ≠ 0
  | .bool b => b
  | .none => false

/-- Python exceptions raised by the primitives this code uses. -/
inductive PyExc where
  | valueError
  | attributeError
deriving DecidableEq, Repr

/-! ## BaseParser.validate_data (src/parsers/base.py lines 132-177) -/

/-- Per-field check of `validate_data`'s required-field loop:
`field in data`, `value` truthy, and not a blank string. -/
def fieldOk (d : RawRecord) (k : String) : Bool :=
  match lookupKey d k with
  | Option.none => false
  | some v => pyTruthy v && !(match v with
      | .str s => pyStrip s = ""
      | _ => false)

/-- Is the value stored at `k` a `str` (the `isinstance` checks)? -/
def isStrAt (d : RawRecord) (k : String) : Bool :=
  match lookupKey d k with
  | some (.str _) => true
  | _ => false

/-- Lower-cased source tag as computed by `data.get('source', '').lower()`;
`none` models the `AttributeError` raised when the stored value is not a
string. -/
def sourceLower (d : RawRecord) : Option String :=
  match lookupKey d "source" with
  | Option.none => some ""
  | some (.str s) => some (pyLower s)
  | some _ => Option.none

/-- Model of `BaseParser.validate_data`.  The `Except` layer records the one
uncaught raise point: `.lower()` on a non-string `source` value. -/
def validate_data (data : RawRecord) : Except PyExc Bool :=
  if data.isEmpty then Except.ok false
  else
    match sourceLower data with
    | Option.none => Except.error PyExc.attributeError
    | some source =>
      if source = "wildberries" || source = "ozon" || source = "uzum"
          || hasKey data "price" then
        Except.ok (fieldOk data "name" && fieldOk data "url" && fieldOk data "source"
          && isStrAt data "name" && isStrAt data "url" && isStrAt data "source")
      else if source = "google_maps" || source = "yandex_maps" || source = "2gis"
          || hasKey data "coordinates" then
        Except.ok (fieldOk data "name" && fieldOk data "source"
          && isStrAt data "name" && isStrAt data "source")
      else
        Except.ok true

/-! ## The three `_parse_price` heuristics -/

/-- Model of `OzonParser._parse_price`: drop spaces, keep digits and `,`/`.`,
turn `,` into `.`, then `float` (0.0 on failure). -/
def ozon_parse_price (price_text : String) : ℚ :=
  let noSpace := String.mk (price_text.data.filter (fun c => c ≠ ' '))
  let cleaned := String.mk (noSpace.data.filter
    (fun c => c.isDigit || c = ',' || c = '.'))
  let dotted := String.mk (cleaned.data.map (fun c => if c = ',' then '.' else c))
  (pyFloat dotted).getD 0

/-- Model of `WildberriesParser._parse_price`: keep digits only, `float`, then
divide by 100 (prices are stored in kopecks); 0.0 on failure. -/
def wb_parse_price (price_text : String) : ℚ :=
  let cleaned := String.mk (price_text.data.filter Char.isDigit)
  match pyFloat cleaned with
  | some q => q / 100
  | Option.none => 0

/-- Model of `UzumParser._parse_price`: replace `,` by a space, keep digits and
whitespace, drop the spaces, then `float` (0.0 on failure or empty). -/
def uzum_parse_price (price_text : String) : ℚ :=
  let swapped := String.mk (price_text.data.map (fun c => if c = ',' then ' ' else c))
  let kept := String.mk (swapped.data.filter (fun c => c.isDigit || isPySpace c))
  let cleaned := String.mk (kept.data.filter (fun c => c ≠ ' '))
  if cleaned = "" then 0
  else (pyFloat cleaned).getD 0

instance {ε α : Type} [DecidableEq ε] [DecidableEq α] : DecidableEq (Except ε α) := fun
  | .ok a, .ok b =>
    match decEq a b with
    | isTrue h => isTrue (by rw [h])
    | isFalse h => isFalse (fun hh => h (by injection hh))
  | .ok _, .error _ => isFalse (fun h => Except.noConfusion h)
  | .error _, .ok _ => isFalse (fun h => Except.noConfusion h)
  | .error e, .error f =>
    match decEq e f with
    | isTrue h => isTrue (by rw [h])
    | isFalse h => isFalse (fun hh => h (by injection hh))

/-! ## Resilient transport: BaseParser._make_request and _create_session
(src/parsers/base.py lines 38-125) -/

/-- An HTTP response as far as the parsers observe it. -/
structure HttpResponse where
  status : Nat
  body : String
deriving DecidableEq, Repr

/-- Outcome of `session.request`: a response, or a network/timeout
error (`requests.exceptions.RequestException` that is not `HTTPError`). -/
inductive ReqOutcome where
  | got (r : HttpResponse)
  | netError
deriving DecidableEq, Repr

/-- Exceptions that the body of `_make_request` can raise. -/
inductive ReqExc where
  | httpError (r : HttpResponse)
  | requestException
deriving DecidableEq, Repr

/-- The `try` body of `_make_request`: perform the request; for any
status ≥ 400 other than 498, `raise_for_status` raises `HTTPError`
carrying the response; 498 is deliberately not raised. -/
def make_request_body (o : ReqOutcome) : Except ReqExc HttpResponse :=
  match o with
  | .netError => Except.error ReqExc.requestException
  | .got r =>
    if r.status ≠ 498 ∧ 400 ≤ r.status then Except.error (ReqExc.httpError r)
    else Except.ok r

/-- Model of `BaseParser._make_request` with its two `except` clauses:
`HTTPError` returns the attached response, any other
`RequestException` returns `None`. -/
def make_request (o : ReqOutcome) : Option HttpResponse :=
  match make_request_body o with
  | Except.ok r => some r
  | Except.error (ReqExc.httpError r) => some r
  | Except.error ReqExc.requestException => Option.none

/-- Model of `_make_request` seen from the caller including any exception that
could escape it: the two `except` clauses cover every exception the
body can raise, so the error constructor is never produced. -/
def make_request_checked (o : ReqOutcome) : Except ReqExc (Option HttpResponse) :=
  match make_request_body o with
  | Except.ok r => Except.ok (some r)
  | Except.error (ReqExc.httpError r) => Except.ok (some r)
  | Except.error ReqExc.requestException => Except.ok Option.none

/-- Model of `Retry(total=3, ...)` of `_create_session`. -/
def retry_total : Nat := 3

/-- Model of `status_forcelist` of `_create_session`. -/
def status_forcelist : List Nat := [429, 500, 502, 503, 504]

/-- The urllib3 status-retry loop configured by `_create_session`:
`responses i` is the i-th response the server would give; the session
re-sends while the status is in the forcelist and retry budget remains.
Returns (number of requests sent, final response). -/
def retryLoop (responses : Nat → HttpResponse) : Nat → Nat → Nat × HttpResponse
  | i, 0 => (i + 1, responses i)
  | i, budget + 1 =>
    if (responses i).status ∈ status_forcelist then retryLoop responses (i + 1) budget
    else (i + 1, responses i)

/-- One transport-level send with the session's retry policy. -/
def sessionSend (responses : Nat → HttpResponse) : Nat × HttpResponse :=
  retryLoop responses 0 retry_total

/-! ## List truncation: `products[:limit]` guarded by `if limit:` -/

/-- Python `l[:stop]` (negative stop counts from the end). -/
def pySliceStop {α : Type} (l : List α) (stop : Int) : List α :=
  if 0 ≤ stop then l.take stop.toNat
  else l.take (l.length - min l.length (-stop).toNat)

/-- The `if limit: products = products[:limit]` idiom: `None` and `0`
are falsy, so they leave the list untouched. -/
def pyLimit {α : Type} (l : List α) (limit : Option Int) : List α :=
  match limit with
  | Option.none => l
  | some n => if n ≠ 0 then pySliceStop l n else l

/-! ## BaseMarketplaceParser.parse_search and
BaseMapsParser.search_organizations
(src/parsers/marketplace/base_marketplace.py lines 13-39,
src/parsers/maps/base_maps.py lines 12-40) -/

/-- Model of `BaseMarketplaceParser.parse_search`, parameterised by the
subclass's `_extract_products` and by the transport outcome of the one
request it makes. -/
def mp_parse_search {α : Type} (extract : String → List α)
    (outcome : ReqOutcome) (limit : Option Int) : List α :=
  match make_request outcome with
  | Option.none => []
  | some r => pyLimit (extract r.body) limit

/-- Model of `BaseMapsParser.search_organizations`, parameterised by the
subclass's `_extract_organizations` (which also receives the query). -/
def maps_search_organizations {α : Type} (extract : String → String → List α)
    (query : String) (outcome : ReqOutcome) (limit : Option Int) : List α :=
  match make_request outcome with
  | Option.none => []
  | some r => pyLimit (extract r.body query) limit

/-! ## Parsed documents: a model of the BeautifulSoup tree -/

mutual

/-- A node of a parsed document: a text node, or a tag with its
attributes (other than `class`), its class list, and its children. -/
inductive Node where
  | text (s : String)
  | elem (tag : String) (attrs : List (String × String))
      (classes : List String) (kids : NodeL)

/-- Children of a tag (a bespoke list so that recursion over the tree
is structural and evaluates by iota reduction). -/
inductive NodeL where
  | nil
  | cons (hd : Node) (tl : NodeL)

end

/-- Build a child list from a `List Node`. -/
def nodL : List Node → NodeL
  | [] => NodeL.nil
  | n :: ns => NodeL.cons n (nodL ns)

/-- Back to an ordinary list. -/
def NodeL.toList : NodeL → List Node
  | .nil => []
  | .cons n ns => n :: ns.toList

mutual

/-- Structural equality (bs4 `Tag.__eq__` compares name, attributes and
contents recursively; Python `in` on a list of tags uses it). -/
def Node.beq : Node → Node → Bool
  | .text s, .text t => s = t
  | .elem t1 a1 c1 k1, .elem t2 a2 c2 k2 =>
    t1 = t2 && a1 = a2 && c1 = c2 && NodeL.beqL k1 k2
  | _, _ => false

/-- Structural equality on child lists. -/
def NodeL.beqL : NodeL → NodeL → Bool
  | .nil, .nil => true
  | .cons x xs, .cons y ys => Node.beq x y && NodeL.beqL xs ys
  | _, _ => false

end

mutual

/-- All descendants of a node in document (pre-) order. -/
def Node.descendants : Node → List Node
  | .text _ => []
  | .elem _ _ _ kids => NodeL.descL kids

/-- Descendants contributed by a child list. -/
def NodeL.descL : NodeL → List Node
  | .nil => []
  | .cons k ks => k :: (Node.descendants k ++ NodeL.descL ks)

end

/-- Direct children as a list. -/
def Node.children : Node → List Node
  | .text _ => []
  | .elem _ _ _ kids => kids.toList

/-- The raw text of a node: `get_text()` — all descendant strings
concatenated in document order. -/
def Node.getTextRaw (n : Node) : String :=
  match n with
  | .text s => s
  | _ => String.join (n.descendants.filterMap (fun d =>
      match d with
      | .text s => some s
      | _ => Option.none))

/-- Model of `get_text(strip=True)`: each string stripped, then concatenated. -/
def Node.getTextStrip (n : Node) : String :=
  match n with
  | .text s => pyStrip s
  | _ => String.join (n.descendants.filterMap (fun d =>
      match d with
      | .text s => some (pyStrip s)
      | _ => Option.none))

/-- The first descendant string (`find(string=True)`). -/
def Node.firstString (n : Node) : Option String :=
  n.descendants.findSome? (fun d =>
    match d with
    | .text s => some s
    | _ => Option.none)

/-- Model of `tag.get(k)`: attribute lookup. -/
def Node.getAttr (n : Node) (k : String) : Option String :=
  match n with
  | .text _ => Option.none
  | .elem _ attrs _ _ => (attrs.find? (fun p => p.1 = k)).map (fun p => p.2)

/-- Model of `tag.get(k, d)`. -/
def Node.getAttrD (n : Node) (k d : String) : String :=
  (n.getAttr k).getD d

/-- The tag name (`tag.name`); empty for text nodes. -/
def Node.tagName : Node → String
  | .text _ => ""
  | .elem t _ _ _ => t

/-- Class filters that occur in the parsers. A callable passed for the
`class` attribute is applied by bs4 to each class string separately. -/
inductive ClassCond where
  | anyClass
  | eqClass (name : String)
  | patLower (pat : String)
  | patLower2 (p q : String)
  | patJoinChars (pat : String)

/-- Python `' '.join(s)` over a *string*: its characters joined by
spaces (this is what the Wildberries class lambdas actually compute
when bs4 hands them one class string). -/
def joinSpaceChars (s : String) : String :=
  String.mk (s.data.intersperse ' ')

/-- Evaluate a class filter against a tag's class list. -/
def classMatch : ClassCond → List String → Bool
  | .anyClass, _ => true
  | .eqClass n, cs => cs.contains n
  | .patLower p, cs => cs.any (fun c => c ≠ "" && strContainsSub (pyLower c) p)
  | .patLower2 p q, cs =>
    cs.any (fun c => c ≠ "" && (strContainsSub (pyLower c) p || strContainsSub (pyLower c) q))
  | .patJoinChars p, cs =>
    cs.any (fun c => c ≠ "" && strContainsSub (pyLower (joinSpaceChars c)) p)

/-- A `find`/`find_all` query: optional tag name, attributes that must
be present (`{'k': True}`), and a class filter. -/
structure Query where
  tag : Option String
  needAttrs : List String
  cls : ClassCond

/-- Does a node match a query? (Text nodes never do.) -/
def nodeMatches (q : Query) : Node → Bool
  | .text _ => false
  | .elem t attrs classes _ =>
    (match q.tag with
     | Option.none => true
     | some tg => t = tg)
    && q.needAttrs.all (fun k => (attrs.find? (fun p => p.1 = k)).isSome)
    && classMatch q.cls classes

/-- Model of `find_all`: all matching descendants in document order. -/
def Node.findAll (n : Node) (q : Query) : List Node :=
  n.descendants.filter (nodeMatches q)

/-- Model of `find`: the first matching descendant. -/
def Node.find1 (n : Node) (q : Query) : Option Node :=
  (n.findAll q).head?

/-- The parent of `t` inside `root` (structural identity; the concrete
documents used here contain no duplicated subtrees). -/
def Node.parentOf (root t : Node) : Option Node :=
  (root :: root.descendants).find? (fun a => a.children.any (fun k => Node.beq k t))

/-- Ancestor chain of `t` inside `root`, nearest first (fuel-indexed). -/
def Node.ancestorsAux (root : Node) : Nat → Node → List Node
  | 0, _ => []
  | fuel + 1, t =>
    match Node.parentOf root t with
    | some p => p :: Node.ancestorsAux root fuel p
    | Option.none => []

/-- Ancestors of `t` inside `root`, nearest first. -/
def Node.ancestors (root t : Node) : List Node :=
  Node.ancestorsAux root (root.descendants.length + 1) t

/-- Model of `find_parent(tag)`: the nearest ancestor with the given tag. -/
def Node.findParent (root t : Node) (tag : String) : Option Node :=
  (Node.ancestors root t).find? (fun a => a.tagName = tag)

/-! ## Regular-expression fragments used by the extractors -/

/-- Model of `re.findall(r'\d+[\s,]*\d*', text)`: scan left to right; each match
is a digit run, then greedily whitespace/commas, then an optional
second digit run (fuel-indexed on the text length). -/
def findNumbersAux : Nat → List Char → List (List Char)
  | 0, _ => []
  | _, [] => []
  | fuel + 1, c :: cs =>
    if c.isDigit then
      let d1 := (c :: cs).takeWhile Char.isDigit
      let r1 := (c :: cs).drop d1.length
      let sep := r1.takeWhile (fun x => isPySpace x || x = ',')
      let r2 := r1.drop sep.length
      let d2 := r2.takeWhile Char.isDigit
      let r3 := r2.drop d2.length
      (d1 ++ sep ++ d2) :: findNumbersAux fuel r3
    else findNumbersAux fuel cs

/-- All matches of `\d+[\s,]*\d*` in a string. -/
def findNumbers (s : String) : List String :=
  (findNumbersAux (s.length + 1) s.data).map String.mk

/-- Model of `int(re.sub(r'[\s,]', '', n))` for a match `n` of the pattern
above: drop whitespace and commas, read the remaining digits. -/
def numOfMatch (s : String) : Nat :=
  digitsVal (s.data.filter (fun c => !(isPySpace c || c = ',')))

/-- Model of `re.search(lit + r'(\d+)', url)`: first occurrence of the literal
followed by at least one digit; returns the digits. -/
def scanLitDigits (lit : List Char) : List Char → Option (List Char)
  | [] => Option.none
  | c :: cs =>
    if lit.isPrefixOf (c :: cs) then
      let ds := ((c :: cs).drop lit.length).takeWhile Char.isDigit
      if ds.isEmpty then scanLitDigits lit cs else some ds
    else scanLitDigits lit cs

/-- Model of `re.search(r'/(\d+)/', url)`: digits enclosed in slashes. -/
def scanSlashNumSlash : List Char → Option (List Char)
  | [] => Option.none
  | c :: cs =>
    if c = '/' then
      let ds := cs.takeWhile Char.isDigit
      if !ds.isEmpty && ((cs.drop ds.length).head? = some '/') then some ds
      else scanSlashNumSlash cs
    else scanSlashNumSlash cs

/-- Model of `re.search(r'[...]+', s)` for a character class: the first maximal
run of characters satisfying `p`. -/
def firstRun (p : Char → Bool) (s : String) : Option String :=
  let rec go : List Char → Option (List Char)
    | [] => Option.none
    | c :: cs => if p c then some (c :: cs.takeWhile p) else go cs
  (go s.data).map String.mk

/-- Model of `re.search(r'/([^/]+)/?$', href)`: the last path segment (requires
a preceding `/`; tolerates one trailing `/`). -/
def lastSegment (href : String) : Option String :=
  let noSlash :=
    match href.data.reverse with
    | '/' :: r => r.reverse
    | _ => href.data
  let seg := (noSlash.reverse.takeWhile (fun c => c ≠ '/')).reverse
  if seg.isEmpty then Option.none
  else if noSlash.length = seg.length then Option.none
  else some (String.mk seg)

/-- Python `a or b` on strings (first truthy operand, else the last). -/
def orStr (a b : String) : String :=
  if a ≠ "" then a else b

/-- A chain `x1 or x2 or ... or None` over optional strings: the first
operand that is neither `None` nor empty. -/
def pickTruthyStr (l : List (Option String)) : Option String :=
  l.findSome? (fun o =>
    match o with
    | some s => if s ≠ "" then some s else Option.none
    | Option.none => Option.none)

/-! ## urllib.parse.quote (default safe characters plus slash) -/

/-- UTF-8 bytes of a character. -/
def utf8Bytes (c : Char) : List Nat :=
  let n := c.toNat
  if n < 128 then [n]
  else if n < 2048 then [192 + n / 64, 128 + n % 64]
  else if n < 65536 then [224 + n / 4096, 128 + (n / 64) % 64, 128 + n % 64]
  else [240 + n / 262144, 128 + (n / 4096) % 64, 128 + (n / 64) % 64, 128 + n % 64]

/-- Upper-case hexadecimal digit. -/
def hexDigit (n : Nat) : Char :=
  if n < 10 then Char.ofNat (48 + n) else Char.ofNat (55 + n)

/-- Percent-encode one character as `urllib.parse.quote` does. -/
def quoteChar (c : Char) : List Char :=
  if (c.isAlphanum && c.toNat < 128) || c = '_' || c = '.' || c = '-' || c = '~' || c = '/'
  then [c]
  else (utf8Bytes c).flatMap (fun b => ['%', hexDigit (b / 16), hexDigit (b % 16)])

/-- Model of `urllib.parse.quote(s)` with the default `safe='/'`. -/
def pyQuote (s : String) : String :=
  String.mk (s.data.flatMap quoteChar)

/-- Python `s.replace(old, new)` for single-character substitutions. -/
def replChar (s : String) (old new : Char) : String :=
  String.mk (s.data.map (fun c => if c = old then new else c))

/-! ## UzumParser (src/parsers/marketplace/uzum.py) -/

/-- Prefix test on strings (`str.startswith`). -/
def strStarts (s pre : String) : Bool :=
  pre.data.isPrefixOf s.data

/-- Python `s[:n]` by code points. -/
def pyTake (s : String) (n : Nat) : String :=
  String.mk (s.data.take n)

/-- Model of `a or b` on options (`x.find(...) or y.find(...)`). -/
def obOr {α : Type} (a b : Option α) : Option α :=
  match a with
  | some x => some x
  | Option.none => b

/-- Model of `float(s)` as a fallible computation. -/
def pyFloatE (s : String) : Except PyExc ℚ :=
  match pyFloat s with
  | some q => Except.ok q
  | Option.none => Except.error PyExc.valueError

/-- Model of `try: ... except: default` around a fallible computation. -/
def tryOr {α : Type} (x : Except PyExc α) (dflt : α) : α :=
  match x with
  | Except.ok v => v
  | Except.error _ => dflt

def UZUM_BASE : String := "https://uzum.uz"

def UZUM_SEARCH : String := "https://uzum.uz/ru/search"

/-- Model of `card.find('a')` / `card.find('img')` / `card.find('a', href=True)`
/ `card.find('div')` queries. -/
def aAnyQ : Query := ⟨some "a", [], ClassCond.anyClass⟩

def imgAnyQ : Query := ⟨some "img", [], ClassCond.anyClass⟩

def aHrefQ : Query := ⟨some "a", ["href"], ClassCond.anyClass⟩

def divAnyQ : Query := ⟨some "div", [], ClassCond.anyClass⟩

def articleAnyQ : Query := ⟨some "article", [], ClassCond.anyClass⟩

/-- The nine candidate-card locators of `_extract_products`
(uzum.py lines 52-64), in declared order. -/
def uzumSelectorResults (doc : Node) : List (List Node) :=
  [doc.findAll ⟨some "div", [], ClassCond.eqClass "product-card"⟩,
   doc.findAll ⟨some "div", ["data-product-id"], ClassCond.anyClass⟩,
   doc.findAll ⟨some "article", [], ClassCond.eqClass "product"⟩,
   doc.findAll ⟨some "div", [], ClassCond.eqClass "item"⟩,
   doc.findAll ⟨some "a", ["href"], ClassCond.patLower "product"⟩,
   doc.findAll ⟨some "div", [], ClassCond.patLower2 "product" "item"⟩,
   doc.findAll ⟨some "div", ["data-id"], ClassCond.anyClass⟩,
   doc.findAll articleAnyQ,
   (doc.findAll divAnyQ).filter
     (fun d => (d.find1 aAnyQ).isSome && (d.find1 imgAnyQ).isSome)]

/-- First locator result that yields at least one candidate (the
`for selector_result in selectors: if selector_result: ... break` loop;
empty when every locator came up empty). -/
def firstNonEmpty {α : Type} (ls : List (List α)) : List α :=
  (ls.find? (fun l => !l.isEmpty)).getD []

/-- Candidate cards from the ordered locator cascade. -/
def uzumCardsFromSelectors (doc : Node) : List Node :=
  firstNonEmpty (uzumSelectorResults doc)

/-- Fallback: any div with a link, an image and a text node, capped at
20 (uzum.py lines 74-81). -/
def uzumUniversalCards (doc : Node) : List Node :=
  ((doc.findAll divAnyQ).filter (fun d =>
    (d.find1 aAnyQ).isSome && (d.find1 imgAnyQ).isSome
      && (match d.firstString with
          | some s => s ≠ ""
          | Option.none => false))).take 20

/-- Last resort: parents of the first 10 links (uzum.py lines 87-95). -/
def uzumLinkCards (doc : Node) : List Node :=
  ((doc.findAll aHrefQ).take 10).filterMap (fun l =>
    obOr (Node.findParent doc l "div") (Node.findParent doc l "article"))

/-- The final candidate-card list of `UzumParser._extract_products`. -/
def uzumProductCards (doc : Node) : List Node :=
  let pc := uzumCardsFromSelectors doc
  if !pc.isEmpty then pc
  else
    let pc2 := uzumUniversalCards doc
    if !pc2.isEmpty then pc2
    else uzumLinkCards doc

/-- The name locators of `_extract_product_from_card`
(uzum.py lines 124-134), in declared order. -/
def uzumNameQueries : List Query :=
  [⟨some "h3", [], ClassCond.anyClass⟩,
   ⟨some "h2", [], ClassCond.anyClass⟩,
   ⟨some "h4", [], ClassCond.anyClass⟩,
   ⟨some "a", [], ClassCond.patLower "product-title"⟩,
   ⟨some "a", [], ClassCond.patLower "title"⟩,
   ⟨some "span", [], ClassCond.patLower "product-name"⟩,
   ⟨some "span", [], ClassCond.patLower "name"⟩,
   ⟨some "div", [], ClassCond.patLower "title"⟩,
   aHrefQ]

/-- The name cascade: each found element overwrites the running name;
stop at the first stripped text longer than 3 characters. -/
def uzumNameLoop (card : Node) : List Query → String → String
  | [], nm => nm
  | q :: qs, nm =>
    match card.find1 q with
    | Option.none => uzumNameLoop card qs nm
    | some e =>
      let t := e.getTextStrip
      if t ≠ "" && 3 < t.data.length then t else uzumNameLoop card qs t

/-- The extracted name, including the link-text / href-segment
fallback (uzum.py lines 147-159). -/
def uzumName (card : Node) : String :=
  let nm := uzumNameLoop card uzumNameQueries ""
  if nm = "" || nm.data.length < 3 then
    match card.find1 aHrefQ with
    | some link =>
      let nm2 := orStr link.getTextStrip
        (orStr (link.getAttrD "title" "") (link.getAttrD "aria-label" ""))
      if nm2 = "" then
        match lastSegment (link.getAttrD "href" "") with
        | some seg => replChar (replChar seg '-' ' ') '_' ' '
        | Option.none => nm2
      else nm2
    | Option.none => nm
  else nm

/-- The extracted URL before the search fallback (uzum.py lines 166-176):
empty exactly when the card has no `a[href]`. -/
def uzumUrlRaw (card : Node) : String :=
  match card.find1 aHrefQ with
  | some link =>
    let href := link.getAttrD "href" ""
    if strStarts href "http" then href
    else if strStarts href "/" then UZUM_BASE ++ href
    else UZUM_BASE ++ "/" ++ href
  | Option.none => ""

/-- The synthetic search-query URL substituted when no link was
extractable (uzum.py lines 179-181). -/
def uzumSynthUrl (name : String) : String :=
  UZUM_SEARCH ++ "?query=" ++ pyQuote (pyTake name 50)

/-- The URL field: raw extraction, else the synthetic fallback. -/
def uzumUrl (card : Node) (name : String) : String :=
  let url := uzumUrlRaw card
  if url = "" then uzumSynthUrl name else url

/-- The price locators (uzum.py lines 185-192), in declared order. -/
def uzumPriceQueries : List Query :=
  [⟨some "span", [], ClassCond.patLower "price"⟩,
   ⟨some "div", [], ClassCond.patLower "price"⟩,
   ⟨some "span", ["data-price"], ClassCond.anyClass⟩,
   ⟨some "ins", [], ClassCond.patLower "price"⟩,
   ⟨some "strong", [], ClassCond.patLower "price"⟩,
   ⟨some "b", [], ClassCond.patLower "price"⟩]

/-- The price-text cascade: each found element overwrites the running
text; stop at the first digit-containing text. -/
def uzumPriceLoop (card : Node) : List Query → String → String
  | [], pt => pt
  | q :: qs, pt =>
    match card.find1 q with
    | Option.none => uzumPriceLoop card qs pt
    | some e =>
      let t := e.getTextStrip
      if t ≠ "" && hasDigit t then t else uzumPriceLoop card qs t

/-- The price text after the locator cascade (initial value `'0'`). -/
def uzumPriceText (card : Node) : String :=
  uzumPriceLoop card uzumPriceQueries "0"

/-- The candidate numbers for the largest-number fallback: matches of
`\d+[\s,]*\d*` over the raw card text, longer than 3 characters
(uzum.py lines 206-210). -/
def uzumBigNums (card : Node) : List Nat :=
  ((findNumbers card.getTextRaw).filter (fun n => 3 < n.data.length)).map numOfMatch

/-- The final price text: when the cascade produced `''` or `'0'`, take
the largest candidate number if it exceeds 1000 (`max` of an empty
candidate list raises and is swallowed by the bare `except`). -/
def uzumPriceTextFinal (card : Node) : String :=
  let pt := uzumPriceText card
  if pt = "" || pt = "0" then
    match (uzumBigNums card).max? with
    | some m => if 1000 < m then pyStrOfNat m else pt
    | Option.none => pt
  else pt

/-- The extracted rating (uzum.py lines 226-237); the inner
`try/except` maps any parse failure to 0.0. -/
def uzumRating (card : Node) : ℚ :=
  let relem := obOr (card.find1 ⟨some "span", [], ClassCond.eqClass "rating"⟩)
    (obOr (card.find1 ⟨some "div", [], ClassCond.eqClass "rating"⟩)
      (card.find1 ⟨some "span", ["data-rating"], ClassCond.anyClass⟩))
  match relem with
  | Option.none => 0
  | some e =>
    let rt := match e.getAttr "data-rating" with
      | some s => if s ≠ "" then s else e.getTextStrip
      | Option.none => e.getTextStrip
    tryOr (match firstRun (fun c => c.isDigit || c = '.') rt with
      | some run => pyFloatE run
      | Option.none => Except.error PyExc.attributeError) 0

/-- The extracted review count (uzum.py lines 240-249). -/
def uzumReviews (card : Node) : Int :=
  let relem := obOr (card.find1 ⟨some "span", [], ClassCond.eqClass "reviews"⟩)
    (card.find1 ⟨some "div", [], ClassCond.eqClass "reviews-count"⟩)
  match relem with
  | Option.none => 0
  | some e =>
    match firstRun Char.isDigit e.getTextStrip with
    | some run => (digitsVal run.data : Int)
    | Option.none => 0

/-- The extracted image URL (uzum.py lines 252-265). -/
def uzumImage (card : Node) : String :=
  match card.find1 imgAnyQ with
  | Option.none => ""
  | some img =>
    let u := (pickTruthyStr
      [img.getAttr "src", img.getAttr "data-src", img.getAttr "data-lazy-src"]).getD ""
    if u ≠ "" && !(strStarts u "http") then
      if strStarts u "//" then "https:" ++ u
      else if strStarts u "/" then UZUM_BASE ++ u
      else u
    else u

/-- The extracted brand (uzum.py lines 268-273). -/
def uzumBrand (card : Node) : Option String :=
  (obOr (card.find1 ⟨some "span", [], ClassCond.eqClass "brand"⟩)
    (obOr (card.find1 ⟨some "div", [], ClassCond.eqClass "brand"⟩)
      (card.find1 ⟨some "a", [], ClassCond.eqClass "brand-link"⟩))).map Node.getTextStrip

/-- Model of `UzumParser._extract_id_from_url` (uzum.py lines 301-320). -/
def uzum_extract_id_from_url (url : String) : Option String :=
  if url = "" then Option.none
  else
    obOr ((scanLitDigits "/product/".data url.data).map String.mk)
      (obOr ((scanLitDigits "/item/".data url.data).map String.mk)
        (obOr ((scanLitDigits "/p/".data url.data).map String.mk)
          (obOr ((scanLitDigits "id=".data url.data).map String.mk)
            ((scanSlashNumSlash url.data).map String.mk))))

/-- The product id: `data-product-id` or `data-id` or id-from-url,
converted by `str(...) if product_id else None`. -/
def uzumId (card : Node) (url : String) : Option String :=
  pickTruthyStr
    [card.getAttr "data-product-id", card.getAttr "data-id", uzum_extract_id_from_url url]

/-- The raw product dictionary built by `_extract_product_from_card`
(uzum.py lines 276-288). -/
structure UzumProd where
  id : Option String
  name : String
  brand : Option String
  price : ℚ
  rating : ℚ
  reviews_count : Int
  url : String
  image_url : String
  source : String
deriving DecidableEq, Repr

/-- Model of `UzumParser._extract_product_from_card`; `none` models the empty
dictionary returned when no usable name was found. -/
def uzum_extract_product_from_card (card : Node) : Option UzumProd :=
  let name := uzumName card
  if name = "" || name.data.length < 3 then Option.none
  else
    let url := uzumUrl card name
    some
      { id := uzumId card url
        name := pyStrip name
        brand := uzumBrand card
        price := uzum_parse_price (uzumPriceTextFinal card)
        rating := uzumRating card
        reviews_count := uzumReviews card
        url := pyStrip url
        image_url := uzumImage card
        source := "uzum" }

/-- Model of `UzumParser._validate_product_data` (uzum.py lines 322-368) on the
typed record: the `isinstance` checks always pass, the numeric
normalisation is the identity here (prices from `_parse_price` are
never negative), and a blank URL is excused when it contains the
search-URL fallback marker. -/
def uzum_validate_product_data (p : UzumProd) : Bool :=
  (p.name ≠ "" && pyStrip p.name ≠ "")
    && ((p.url ≠ "" && pyStrip p.url ≠ "") || strContainsSub p.url UZUM_SEARCH)
    && (p.source ≠ "" && pyStrip p.source ≠ "")

/-- The card-processing loop of `_extract_products` (uzum.py lines
97-114): failed extractions and invalid products are skipped, the rest
appended in order. -/
def uzum_process_cards (cards : List Node) : List UzumProd :=
  cards.foldl (fun acc c =>
    match uzum_extract_product_from_card c with
    | Option.none => acc
    | some p => if uzum_validate_product_data p then acc ++ [p] else acc) []

/-- Model of `UzumParser._extract_products`. -/
def uzum_extract_products (doc : Node) : List UzumProd :=
  uzum_process_cards (uzumProductCards doc)

/-! ## TwoGISParser (src/parsers/maps/twogis.py) -/

/-- Model of `re.search(r'(\d+[,.]?\d*)', s)`: first digit run, an optional
single comma/dot, then a further (possibly empty) digit run. -/
def scanNumCommaDot : List Char → Option (List Char)
  | [] => Option.none
  | c :: cs =>
    if c.isDigit then
      let d1 := (c :: cs).takeWhile Char.isDigit
      let r1 := (c :: cs).drop d1.length
      match r1 with
      | x :: rest =>
        if x = ',' || x = '.' then some (d1 ++ [x] ++ rest.takeWhile Char.isDigit)
        else some d1
      | [] => some d1
    else scanNumCommaDot cs

def TWOGIS_BASE : String := "https://2gis.ru"

/-- The `or`-chained result locators of `_extract_organizations`
(twogis.py lines 44-46): first non-empty `find_all`, else the last. -/
def twogisSearchResults (doc : Node) : List Node :=
  let r1 := doc.findAll ⟨some "div", [], ClassCond.eqClass "_11gvyqv"⟩
  let r2 := doc.findAll ⟨some "a", [], ClassCond.eqClass "_1rehek"⟩
  let r3 := doc.findAll ⟨some "div", ["data-id"], ClassCond.anyClass⟩
  if !r1.isEmpty then r1 else if !r2.isEmpty then r2 else r3

/-- The organisation name (twogis.py lines 62-70): located text, else
the `data-name` attribute when the text came up empty. -/
def twogisName (r : Node) : String :=
  let n := match obOr (r.find1 ⟨some "span", [], ClassCond.eqClass "_1al0wlf"⟩)
      (obOr (r.find1 ⟨some "div", [], ClassCond.eqClass "_1hf7139"⟩)
        (r.find1 ⟨some "span", [], ClassCond.eqClass "card-title"⟩)) with
    | some e => e.getTextStrip
    | Option.none => ""
  if n = "" then
    match r.getAttr "data-name" with
    | some s => if s ≠ "" then s else n
    | Option.none => n
  else n

/-- The address (twogis.py lines 73-77). -/
def twogisAddress (r : Node) : String :=
  match obOr (r.find1 ⟨some "span", [], ClassCond.eqClass "_1w9o2np"⟩)
      (obOr (r.find1 ⟨some "div", [], ClassCond.eqClass "_1p8iqzw"⟩)
        (r.find1 ⟨some "span", [], ClassCond.eqClass "card-address"⟩)) with
  | some e => e.getTextStrip
  | Option.none => ""

/-- The rating (twogis.py lines 80-90): regex match, comma to dot,
`float` inside `try/except: pass` (so 0.0 on any failure). -/
def twogisRating (r : Node) : ℚ :=
  match obOr (r.find1 ⟨some "span", [], ClassCond.eqClass "_15t2ov5"⟩)
      (r.find1 ⟨some "div", [], ClassCond.eqClass "rating"⟩) with
  | Option.none => 0
  | some e =>
    match scanNumCommaDot e.getTextStrip.data with
    | some m => (pyFloat (replChar (String.mk m) ',' '.')).getD 0
    | Option.none => 0

/-- Model of `TwoGISParser._parse_reviews_count` (twogis.py lines 141-149). -/
def twogis_parse_reviews_count (text : String) : Int :=
  let ds := text.data.filter Char.isDigit
  if ds.isEmpty then 0 else (digitsVal ds : Int)

/-- The review count (twogis.py lines 93-97). -/
def twogisReviewsCount (r : Node) : Int :=
  match obOr (r.find1 ⟨some "span", [], ClassCond.eqClass "_1yq1mhs"⟩)
      (r.find1 ⟨some "span", [], ClassCond.eqClass "reviews-count"⟩) with
  | some e => twogis_parse_reviews_count e.getTextStrip
  | Option.none => 0

/-- The phone (twogis.py lines 100-103). -/
def twogisPhone (r : Node) : String :=
  match obOr (r.find1 ⟨some "span", [], ClassCond.eqClass "_1a0t4pb"⟩)
      (r.find1 ⟨some "span", [], ClassCond.eqClass "phone"⟩) with
  | some e => e.getTextStrip
  | Option.none => ""

/-- The category (twogis.py lines 106-109). -/
def twogisCategory (r : Node) : String :=
  match obOr (r.find1 ⟨some "span", [], ClassCond.eqClass "_12l6h96"⟩)
      (r.find1 ⟨some "div", [], ClassCond.eqClass "rubric"⟩) with
  | some e => e.getTextStrip
  | Option.none => ""

/-- The URL (twogis.py lines 112-125): the result's own `href` when it
is an `a` with a truthy `href`, else the first nested link. `none`
means the `url` key is never added to the dictionary. -/
def twogisUrl (r : Node) : Option String :=
  if r.tagName = "a" && (r.getAttrD "href" "" ≠ "") then
    let href := r.getAttrD "href" ""
    some (if strStarts href "/" then TWOGIS_BASE ++ href else href)
  else
    match r.find1 aHrefQ with
    | some link =>
      let href := link.getAttrD "href" ""
      some (if strStarts href "/" then TWOGIS_BASE ++ href else href)
    | Option.none => Option.none

/-- The id (twogis.py lines 128-129): added only when `data-id` is
truthy. -/
def twogisIdAttr (r : Node) : Option String :=
  match r.getAttr "data-id" with
  | some s => if s ≠ "" then some s else Option.none
  | Option.none => Option.none

/-- The organisation dictionary built by the loop body (twogis.py
lines 50-129).  The eight base keys are initialised up front and then
updated in place, so the final dictionary is the base layout with the
computed values, followed by the conditionally added `url` and `id`. -/
def twogisOrg (r : Node) : RawRecord :=
  [("name", PyVal.str (twogisName r)),
   ("address", PyVal.str (twogisAddress r)),
   ("rating", PyVal.float (twogisRating r)),
   ("reviews_count", PyVal.int (twogisReviewsCount r)),
   ("phone", PyVal.str (twogisPhone r)),
   ("category", PyVal.str (twogisCategory r)),
   ("coordinates", PyVal.none),
   ("source", PyVal.str "2gis")]
  ++ (match twogisUrl r with
      | some u => [("url", PyVal.str u)]
      | Option.none => [])
  ++ (match twogisIdAttr r with
      | some i => [("id", PyVal.str i)]
      | Option.none => [])

/-- One iteration of the organisation loop up to the `append`
(twogis.py lines 49-132): build the record and gate it on
`validate_data` and a truthy name.  All of this runs inside the loop's
`try`; the `Except` layer carries anything `validate_data` might
raise. -/
def twogis_extract_org_e (r : Node) : Except PyExc (Option RawRecord) := do
  let org := twogisOrg r
  let v ← validate_data org
  pure (if v && pyTruthy ((lookupKey org "name").getD PyVal.none)
    then some org else Option.none)

/-- Model of `TwoGISParser._extract_organizations`: the loop with its
`except: continue`. -/
def twogis_extract_organizations (doc : Node) : List RawRecord :=
  (twogisSearchResults doc).foldl (fun acc r =>
    match twogis_extract_org_e r with
    | Except.error _ => acc
    | Except.ok Option.none => acc
    | Except.ok (some org) => acc ++ [org]) []

/-! ## WildberriesParser: HTML locator cascade and parse_search retry
machine (src/parsers/marketplace/wildberries.py) -/

/-- The seven candidate-card locators of `_extract_products_from_html`
(wildberries.py lines 282-291), in declared order.  The fifth locator's
class lambda joins the characters of each class string with spaces
before testing for `'product'`. -/
def wbSelectorResults (doc : Node) : List (List Node) :=
  [doc.findAll ⟨some "article", [], ClassCond.eqClass "product-card"⟩,
   doc.findAll ⟨some "div", [], ClassCond.eqClass "product-card"⟩,
   doc.findAll ⟨some "div", ["data-product-id"], ClassCond.anyClass⟩,
   doc.findAll ⟨some "article", ["data-product-id"], ClassCond.anyClass⟩,
   doc.findAll ⟨some "div", [], ClassCond.patJoinChars "product"⟩,
   doc.findAll articleAnyQ,
   doc.findAll ⟨some "div", ["data-nm-id"], ClassCond.anyClass⟩]

/-- Candidate cards from the ordered Wildberries locator cascade. -/
def wbCardsFromSelectors (doc : Node) : List Node :=
  firstNonEmpty (wbSelectorResults doc)

/-- Links whose `href` contains `/catalog/` (wildberries.py line 302). -/
def wbCatalogLinks (doc : Node) : List Node :=
  doc.descendants.filter (fun n =>
    n.tagName = "a" && (match n.getAttr "href" with
      | some h => h ≠ "" && strContainsSub h "/catalog/"
      | Option.none => false))

/-- The universal fallback (wildberries.py lines 299-308): parents of
catalog links, deduplicated with the structural `in` test. -/
def wbLinkCards (doc : Node) : List Node :=
  (wbCatalogLinks doc).foldl (fun acc l =>
    match obOr (Node.findParent doc l "article") (Node.findParent doc l "div") with
    | some p => if acc.any (fun q => Node.beq q p) then acc else acc ++ [p]
    | Option.none => acc) []

/-- The final candidate-card list of `_extract_products_from_html`. -/
def wb_product_cards (doc : Node) : List Node :=
  let pc := wbCardsFromSelectors doc
  if !pc.isEmpty then pc else wbLinkCards doc

/-- Model of `max_retries` (wildberries.py line 80). -/
def wb_max_retries : Nat := 3

/-- Model of `web_max_retries` (wildberries.py line 212). -/
def wb_web_max_retries : Nat := 2

/-- The API attempt loop of `WildberriesParser.parse_search`
(wildberries.py lines 86-196), fuel-indexed by the remaining attempts.
`extract` stands for `_extract_products`, `shardInfo` for the JSON
probe of lines 124-131 (`None` when the body is not a JSON object with
a `shardKey`), `oracle k` for the outcome of the k-th transport
request, `limit` for the caller's limit.  Returns the early-returned
products (if any), the next oracle index, and the number of loop
iterations run.  Statuses 429/498/403/503 sleep and retry; any other
non-200 response falls through to the next attempt; a `None` response
or an exhausted shard probe breaks to the web fallback. -/
def wb_api_loop {α : Type} (extract : String → List α)
    (shardInfo : String → Option (String × Nat)) (oracle : Nat → ReqOutcome)
    (limit : Option Int) : Nat → Nat → Nat → Option (List α) × Nat × Nat
  | 0, k, iters => (Option.none, k, iters)
  | fuel + 1, k, iters =>
    match make_request (oracle k) with
    | some r =>
      if r.status = 200 then
        let products := extract r.body
        if !products.isEmpty then (some (pyLimit products limit), k + 1, iters + 1)
        else
          match shardInfo r.body with
          | some si =>
            if si.1 ≠ "" && strContainsSub si.1 "presets/" then
              let altProducts : List α :=
                match make_request (oracle (k + 1)) with
                | some ar => if ar.status = 200 then extract ar.body else []
                | Option.none => []
              if !altProducts.isEmpty then
                (some (pyLimit altProducts limit), k + 2, iters + 1)
              else
                let catProducts : List α :=
                  match make_request (oracle (k + 2)) with
                  | some cr => if cr.status = 200 then extract cr.body else []
                  | Option.none => []
                if !catProducts.isEmpty then
                  (some (pyLimit catProducts limit), k + 3, iters + 1)
                else (Option.none, k + 3, iters + 1)
            else (Option.none, k + 1, iters + 1)
          | Option.none => (Option.none, k + 1, iters + 1)
      else if r.status = 429 || r.status = 498 || r.status = 403 || r.status = 503 then
        wb_api_loop extract shardInfo oracle limit fuel (k + 1) (iters + 1)
      else
        wb_api_loop extract shardInfo oracle limit fuel (k + 1) (iters + 1)
    | Option.none => (Option.none, k + 1, iters + 1)

/-- The web-version fallback loop (wildberries.py lines 211-248): at
most `wb_web_max_retries` attempts; 200 returns the (possibly
truncated) extraction even when empty; 498 or a `None` response retry
once and then give up with `[]`; any other status returns `[]`
immediately; an exhausted loop returns `[]`. -/
def wb_web_loop {α : Type} (extract : String → List α) (oracle : Nat → ReqOutcome)
    (limit : Option Int) : Nat → Nat → Nat → List α × Nat
  | 0, _, witers => ([], witers)
  | fuel + 1, k, witers =>
    match make_request (oracle k) with
    | some r =>
      if r.status = 200 then (pyLimit (extract r.body) limit, witers + 1)
      else if r.status = 498 then
        if 0 < fuel then wb_web_loop extract oracle limit fuel (k + 1) (witers + 1)
        else ([], witers + 1)
      else ([], witers + 1)
    | Option.none =>
      if 0 < fuel then wb_web_loop extract oracle limit fuel (k + 1) (witers + 1)
      else ([], witers + 1)

/-- The result of a `parse_search` run together with how many API-loop
and web-loop iterations it used. -/
structure WbSearchTrace (α : Type) where
  result : List α
  apiAttempts : Nat
  webAttempts : Nat
deriving DecidableEq, Repr

/-- Model of `WildberriesParser.parse_search`: the API loop, then the web
fallback. -/
def wb_parse_search {α : Type} (extract : String → List α)
    (shardInfo : String → Option (String × Nat)) (oracle : Nat → ReqOutcome)
    (limit : Option Int) : WbSearchTrace α :=
  match wb_api_loop extract shardInfo oracle limit wb_max_retries 0 0 with
  | (some products, _, iters) => ⟨products, iters, 0⟩
  | (Option.none, k, iters) =>
    let w := wb_web_loop extract oracle limit wb_web_max_retries k 0
    ⟨w.1, iters, w.2⟩

/-! ## The canonical Product model
(src/models/data_models.py lines 6-19 together with
src/bot/telegram_bot.py `_validate_and_normalize_product`) -/

/-- The pydantic `Product` model; `parsed_at` is stamped from the wall
clock (`datetime.now`) when the model is constructed, modelled here as
a tick count. -/
structure ProductModel where
  id : Option String
  name : String
  brand : Option String
  price : ℚ
  rating : ℚ
  reviews_count : Int
  url : String
  image_url : String
  description : Option String
  characteristics : List (String × String)
  source : String
  parsed_at : Nat
deriving DecidableEq, Repr

/-- Model of `_validate_and_normalize_product` followed by `Product(**...)`:
required fields must be truthy, strings are stripped, and the model's
`parsed_at` default factory reads the clock at construction time. -/
def validate_and_normalize_product (now : Nat) (p : UzumProd) : Option ProductModel :=
  if p.name = "" || p.url = "" || p.source = "" then Option.none
  else some
    { id := p.id
      name := pyStrip p.name
      brand := p.brand
      price := p.price
      rating := p.rating
      reviews_count := p.reviews_count
      url := pyStrip p.url
      image_url := p.image_url
      description := Option.none
      characteristics := []
      source := pyStrip p.source
      parsed_at := now }

/-- Extraction followed by canonical-model construction at clock time
`now`: the pipeline as the front end drives it on an already-fetched
document. -/
def pipeline_to_canonical (now : Nat) (doc : Node) : List ProductModel :=
  (uzum_extract_products doc).filterMap (validate_and_normalize_product now)

/-- Erase the construction timestamp (for comparing two runs field by
field apart from `parsed_at`). -/
def eraseTime (m : ProductModel) : ProductModel :=
  { m with parsed_at := 0 }

/-- The ambient interpreter environment a Python strategy could in
principle consult: a wall clock and a random seed. -/
structure PyEnv where
  clock : Nat
  randomSeed : Nat

/-- Model of `UzumParser._extract_products` with the ambient environment made
explicit: the source consults neither `random` nor any clock in its
extraction strategies, so the environment is unused. -/
def uzum_extract_products_env (_env : PyEnv) (doc : Node) : List UzumProd :=
  uzum_extract_products doc

/-! ## Helper lemmas -/

/-- A required field is *missing or blank* when the key is absent or
holds a string that strips to nothing. -/
def missingOrBlank (d : RawRecord) (k : String) : Prop :=
  lookupKey d k = Option.none
    ∨ ∃ s, lookupKey d k = some (PyVal.str s) ∧ pyStrip s = ""

theorem fieldOk_of_missingOrBlank {d : RawRecord} {k : String}
    (h : missingOrBlank d k) : fieldOk d k = false := by
  rcases h with h | ⟨s, hl, hs⟩
  · simp [fieldOk, h]
  · by_cases he : s = ""
    · subst he; simp [fieldOk, hl, pyTruthy]
    · simp [fieldOk, hl, pyTruthy, he, hs]

theorem digit_not_space {c : Char} (h : c.isDigit = true) : isPySpace c = false := by
  by_contra hk
  simp only [Bool.not_eq_false, isPySpace, Bool.or_eq_true, decide_eq_true_eq] at hk
  rcases hk with ((((h1 | h1) | h1) | h1) | h1) | h1 <;> subst h1 <;> simp at h

theorem pyStrip_ne_empty {s : String} {c : Char} (hc : c ∈ s.data)
    (hcs : isPySpace c = false) : pyStrip s ≠ "" := by
  intro h
  have hdata : (((s.data.dropWhile isPySpace).reverse.dropWhile isPySpace).reverse) = [] := by
    have hcd := congrArg String.data h
    simpa [pyStrip] using hcd
  rw [List.reverse_eq_nil_iff] at hdata
  have hall : ∀ x ∈ (s.data.dropWhile isPySpace).reverse, isPySpace x = true :=
    List.dropWhile_eq_nil_iff.mp hdata
  have hall2 : ∀ x ∈ s.data.dropWhile isPySpace, isPySpace x = true := by
    intro x hx
    exact hall x (List.mem_reverse.mpr hx)
  have hsplit : s.data.takeWhile isPySpace ++ s.data.dropWhile isPySpace = s.data :=
    List.takeWhile_append_dropWhile isPySpace s.data
  rw [← hsplit] at hc
  rcases List.mem_append.mp hc with hmem | hmem
  · exact absurd (List.mem_takeWhile_imp hmem) (by simp [hcs])
  · exact absurd (hall2 c hmem) (by simp [hcs])

theorem digitChar_isDigit {n : Nat} (h : n < 10) : (digitChar n).isDigit = true := by
  interval_cases n <;> decide

theorem digitChar_val {n : Nat} (h : n < 10) : (digitChar n).toNat - 48 = n := by
  interval_cases n <;> decide

theorem digitsVal_append_single (l : List Char) (c : Char) :
    digitsVal (l ++ [c]) = 10 * digitsVal l + (c.toNat - 48) := by
  simp [digitsVal, List.foldl_append]

theorem natStrAux_spec :
    ∀ fuel n, n < fuel →
      (∀ c ∈ natStrAux fuel n, c.isDigit = true)
        ∧ digitsVal (natStrAux fuel n) = n ∧ natStrAux fuel n ≠ [] := by
  intro fuel
  induction fuel with
  | zero => intro n hn; omega
  | succ f ih =>
    intro n hn
    by_cases h10 : n < 10
    · refine ⟨?_, ?_, ?_⟩
      · intro c hcmem
        simp only [natStrAux, if_pos h10, List.mem_singleton] at hcmem
        subst hcmem
        exact digitChar_isDigit h10
      · simp only [natStrAux, if_pos h10]
        have : digitsVal [digitChar n] = (digitChar n).toNat - 48 := by
          simp [digitsVal]
        rw [this, digitChar_val h10]
      · simp [natStrAux, if_pos h10]
    · have hdiv : n / 10 < f := by
        have h1 : n / 10 < n := Nat.div_lt_self (by omega) (by omega)
        omega
      obtain ⟨ihd, ihv, ihne⟩ := ih (n / 10) hdiv
      have hmod : n % 10 < 10 := Nat.mod_lt n (by omega)
      refine ⟨?_, ?_, ?_⟩
      · intro c hcmem
        simp only [natStrAux, if_neg h10, List.mem_append, List.mem_singleton] at hcmem
        rcases hcmem with hcm | hcm
        · exact ihd c hcm
        · subst hcm; exact digitChar_isDigit hmod
      · simp only [natStrAux, if_neg h10]
        rw [digitsVal_append_single, ihv, digitChar_val hmod]
        omega
      · simp [natStrAux, if_neg h10]

theorem pyStrOfNat_spec (n : Nat) :
    (∀ c ∈ (pyStrOfNat n).data, c.isDigit = true)
      ∧ digitsVal (pyStrOfNat n).data = n ∧ (pyStrOfNat n).data ≠ [] :=
  natStrAux_spec (n + 1) n (Nat.lt_succ_self n)

theorem digit_ne {c : Char} (h : c.isDigit = true) :
    c ≠ '-' ∧ c ≠ '+' ∧ c ≠ ',' ∧ c ≠ ' ' := by
  refine ⟨?_, ?_, ?_, ?_⟩ <;> intro he <;> subst he <;> simp at h

theorem pyStrip_all_digits {l : List Char} (hd : ∀ c ∈ l, c.isDigit = true) :
    pyStrip (String.mk l) = String.mk l := by
  have hns : ∀ c ∈ l, isPySpace c = false := fun c hc => digit_not_space (hd c hc)
  have h1 : l.dropWhile isPySpace = l := by
    cases l with
    | nil => rfl
    | cons a t => rw [List.dropWhile_cons_of_neg (by simp [hns a (by simp)])]
  have h2 : l.reverse.dropWhile isPySpace = l.reverse := by
    cases hrev : l.reverse with
    | nil => rfl
    | cons a t =>
      have ha : a ∈ l := by
        rw [← List.mem_reverse, hrev]; simp
      rw [List.dropWhile_cons_of_neg (by simp [hns a ha])]
  simp [pyStrip, h1, h2]

theorem pyFloat_digits {l : List Char} (hd : ∀ c ∈ l, c.isDigit = true)
    (hne : l ≠ []) : pyFloat (String.mk l) = some ((digitsVal l : ℚ)) := by
  cases l with
  | nil => exact absurd rfl hne
  | cons c cs =>
    have hc := hd c (by simp)
    have hcd := digit_ne hc
    have htake : (c :: cs).takeWhile Char.isDigit = c :: cs :=
      List.takeWhile_eq_self_iff.mpr hd
    have hdrop : (c :: cs).dropWhile Char.isDigit = [] :=
      List.dropWhile_eq_nil_iff.mpr hd
    have hstrip := pyStrip_all_digits hd
    rw [pyFloat, pyFloatRepr]
    simp only [hstrip, hcd.1, hcd.2.1, if_neg, ite_false]
    simp only [htake, hdrop]
    simp [ratOfRepr, List.isEmpty]

theorem uzum_parse_price_digits {l : List Char} (hd : ∀ c ∈ l, c.isDigit = true)
    (hne : l ≠ []) : uzum_parse_price (String.mk l) = (digitsVal l : ℚ) := by
  have hmap : l.map (fun c => if c = ',' then ' ' else c) = l := by
    conv_rhs => rw [show l = l.map id from (List.map_id l).symm]
    refine List.map_congr_left ?_
    intro c hcl
    simp [(digit_ne (hd c hcl)).2.2.1]
  have hf1 : l.filter (fun c => c.isDigit || isPySpace c) = l :=
    List.filter_eq_self.mpr (fun c hcl => by simp [hd c hcl])
  have hf2 : l.filter (fun c => c ≠ ' ') = l :=
    List.filter_eq_self.mpr (fun c hcl => by simp [(digit_ne (hd c hcl)).2.2.2])
  have hmk : String.mk l ≠ "" := by
    intro h
    exact hne (by simpa using congrArg String.data h)
  rw [uzum_parse_price]
  simp only [hmap, hf1, hf2]
  rw [if_neg hmk, pyFloat_digits hd hne]
  rfl

theorem uzum_parse_price_strOfNat (m : Nat) :
    uzum_parse_price (pyStrOfNat m) = (m : ℚ) := by
  obtain ⟨hd, hv, hne⟩ := pyStrOfNat_spec m
  have : pyStrOfNat m = String.mk (pyStrOfNat m).data := rfl
  rw [this, uzum_parse_price_digits hd hne, hv]

theorem make_request_eq_some {o : ReqOutcome} {r : HttpResponse}
    (h : make_request o = some r) : o = ReqOutcome.got r := by
  cases o with
  | got r2 =>
    have : r2 = r := by
      by_cases hb : r2.status ≠ 498 ∧ 400 ≤ r2.status <;>
        simp [make_request, make_request_body, hb] at h <;> exact h
    rw [this]
  | netError => simp [make_request, make_request_body] at h

theorem retryLoop_count (rs : Nat → HttpResponse) :
    ∀ b i, (retryLoop rs i b).1 ≤ i + b + 1 := by
  intro b
  induction b with
  | zero => intro i; simp [retryLoop]
  | succ b ih =>
    intro i
    rw [retryLoop]
    split
    · have hnext := ih (i + 1); omega
    · simp

theorem retryLoop_forcelist (rs : Nat → HttpResponse) :
    ∀ b i j, i ≤ j → j + 1 < (retryLoop rs i b).1 →
      (rs j).status ∈ status_forcelist := by
  intro b
  induction b with
  | zero =>
    intro i j hij hlt
    simp [retryLoop] at hlt
    omega
  | succ b ih =>
    intro i j hij hlt
    rw [retryLoop] at hlt
    by_cases hin : (rs i).status ∈ status_forcelist
    · rw [if_pos hin] at hlt
      by_cases hji : j = i
      · subst hji; exact hin
      · exact ih (i + 1) j (by omega) hlt
    · rw [if_neg hin] at hlt
      omega

theorem wb_api_loop_iters {α : Type} (extract : String → List α)
    (shardInfo : String → Option (String × Nat)) (oracle : Nat → ReqOutcome)
    (limit : Option Int) :
    ∀ fuel k iters,
      (wb_api_loop extract shardInfo oracle limit fuel k iters).2.2 ≤ iters + fuel := by
  intro fuel
  induction fuel with
  | zero => intro k iters; simp [wb_api_loop]
  | succ f ih =>
    intro k iters
    rw [wb_api_loop]
    dsimp only
    repeat' split
    all_goals first
      | (have hnext := ih (k + 1) (iters + 1); omega)
      | (simp; try omega)

theorem wb_web_loop_iters {α : Type} (extract : String → List α)
    (oracle : Nat → ReqOutcome) (limit : Option Int) :
    ∀ fuel k witers,
      (wb_web_loop extract oracle limit fuel k witers).2 ≤ witers + fuel := by
  intro fuel
  induction fuel with
  | zero => intro k witers; simp [wb_web_loop]
  | succ f ih =>
    intro k witers
    rw [wb_web_loop]
    repeat' split
    all_goals (have hnext := ih (k + 1) (witers + 1); omega)

theorem wb_api_loop_no200 {α : Type} (extract : String → List α)
    (shardInfo : String → Option (String × Nat)) (oracle : Nat → ReqOutcome)
    (limit : Option Int)
    (h200 : ∀ n r, oracle n = ReqOutcome.got r → r.status ≠ 200) :
    ∀ fuel k iters,
      (wb_api_loop extract shardInfo oracle limit fuel k iters).1 = Option.none := by
  intro fuel
  induction fuel with
  | zero => intro k iters; simp [wb_api_loop]
  | succ f ih =>
    intro k iters
    rw [wb_api_loop]
    dsimp only
    split
    · rename_i r hreq
      have hst : r.status ≠ 200 := h200 k r (make_request_eq_some hreq)
      rw [if_neg hst]
      split <;> exact ih (k + 1) (iters + 1)
    · rfl

theorem wb_web_loop_no200 {α : Type} (extract : String → List α)
    (oracle : Nat → ReqOutcome) (limit : Option Int)
    (h200 : ∀ n r, oracle n = ReqOutcome.got r → r.status ≠ 200) :
    ∀ fuel k witers,
      (wb_web_loop extract oracle limit fuel k witers).1 = [] := by
  intro fuel
  induction fuel with
  | zero => intro k witers; simp [wb_web_loop]
  | succ f ih =>
    intro k witers
    rw [wb_web_loop]
    split
    · rename_i r hreq
      have hst : r.status ≠ 200 := h200 k r (make_request_eq_some hreq)
      rw [if_neg hst]
      split
      · split
        · exact ih (k + 1) (witers + 1)
        · rfl
      · rfl
    · split
      · exact ih (k + 1) (witers + 1)
      · rfl

theorem firstNonEmpty_eq {α : Type} (ls1 : List (List α)) (l : List α)
    (ls2 : List (List α)) (h1 : ∀ x ∈ ls1, x = []) (h2 : l ≠ []) :
    firstNonEmpty (ls1 ++ l :: ls2) = l := by
  rw [firstNonEmpty, List.find?_append]
  have hnone : ls1.find? (fun x => !x.isEmpty) = Option.none := by
    rw [List.find?_eq_none]
    intro x hx
    simp [h1 x hx]
  rw [hnone]
  have hpos : (List.find? (fun x => !x.isEmpty) (l :: ls2)) = some l :=
    List.find?_cons_of_pos _ (by simp [List.isEmpty_iff, h2])
  rw [Option.none_or, hpos]
  rfl

theorem sourceLower_twogisOrg (r : Node) : sourceLower (twogisOrg r) = some "2gis" := by
  have : lookupKey (twogisOrg r) "source" = some (PyVal.str "2gis") := by
    rw [twogisOrg, lookupKey]
    rw [List.find?_append, List.find?_append]
    simp [List.find?]
  rw [sourceLower, this]
  decide

theorem hasKey_price_twogisOrg (r : Node) : hasKey (twogisOrg r) "price" = false := by
  rw [hasKey, lookupKey, twogisOrg]
  rw [List.find?_append, List.find?_append]
  rcases twogisUrl r with _ | u <;> rcases twogisIdAttr r with _ | i <;>
    simp [List.find?]

theorem twogisOrg_ne_nil (r : Node) : (twogisOrg r).isEmpty = false := by
  rw [twogisOrg]
  rfl

theorem twogis_extract_org_e_isOk (r : Node) :
    (twogis_extract_org_e r).isOk = true := by
  rw [twogis_extract_org_e]
  have hsrc := sourceLower_twogisOrg r
  have hpk := hasKey_price_twogisOrg r
  have hne := twogisOrg_ne_nil r
  rw [validate_data, if_neg (by simp [hne]), hsrc]
  simp only [hpk]
  rfl

theorem normalize_eraseTime (t1 t2 : Nat) (p : UzumProd) :
    (validate_and_normalize_product t1 p).map eraseTime
      = (validate_and_normalize_product t2 p).map eraseTime := by
  rw [validate_and_normalize_product, validate_and_normalize_product]
  split
  · rfl
  · rfl

/-! ## Claim theorems -/

/-- A record with neither a recognised `source` nor a `price` or
`coordinates` key: it is missing `name` and `source`, yet
`validate_data` accepts it. -/
def unclassifiedRecord : RawRecord := [("description", PyVal.str "x")]

/-- Counterexample to C1: `validate_data` accepts a record that has no
`name` and no `source` at all, because a record that matches neither
the Product nor the Organization classification falls through both
required-field checks and returns `True`. -/
theorem claim1_counterexample :
    lookupKey unclassifiedRecord "name" = Option.none
      ∧ lookupKey unclassifiedRecord "source" = Option.none
      ∧ validate_data unclassifiedRecord = Except.ok true := by
  refine ⟨by decide, by decide, by decide⟩

/-- C1 (amended): whenever the record is classified as a Product
(lower-cased source in `{wildberries, ozon, uzum}` or a `price` key
present) or as an Organization (lower-cased source in `{google_maps,
yandex_maps, 2gis}` or a `coordinates` key present), a missing or
blank-after-trimming `name` — and likewise `source` — makes
`validate_data` return `False`; records outside both classes are not
checked at all. -/
theorem claim1_validate_rejects_when_classified :
    ∀ (d : RawRecord) (src : String),
      sourceLower d = some src →
      (src = "wildberries" ∨ src = "ozon" ∨ src = "uzum" ∨ hasKey d "price" = true
        ∨ src = "google_maps" ∨ src = "yandex_maps" ∨ src = "2gis"
        ∨ hasKey d "coordinates" = true) →
      (missingOrBlank d "name" ∨ missingOrBlank d "source") →
      validate_data d = Except.ok false := by
  intro d src hsrc hclass hbad
  have hbadf : fieldOk d "name" = false ∨ fieldOk d "source" = false := by
    rcases hbad with h | h
    · exact Or.inl (fieldOk_of_missingOrBlank h)
    · exact Or.inr (fieldOk_of_missingOrBlank h)
  by_cases hE : d.isEmpty
  · rw [validate_data, if_pos hE]
  · rw [validate_data, if_neg hE, hsrc]
    dsimp only
    by_cases hP : (src = "wildberries" || src = "ozon" || src = "uzum"
        || hasKey d "price") = true
    · rw [if_pos hP]
      rcases hbadf with h | h <;> simp [h]
    · rw [if_neg hP]
      by_cases hO : (src = "google_maps" || src = "yandex_maps" || src = "2gis"
          || hasKey d "coordinates") = true
      · rw [if_pos hO]
        rcases hbadf with h | h <;> simp [h]
      · exfalso
        simp only [Bool.or_eq_true, decide_eq_true_eq, not_or] at hP hO
        rcases hclass with h|h|h|h|h|h|h|h <;> simp_all

/-- A Product-classified record (source `uzum`) with no `name` key. -/
def namelessProduct : RawRecord :=
  [("price", PyVal.float 5), ("url", PyVal.str "u"), ("source", PyVal.str "uzum")]

/-- Witness for C1: the amended theorem applied to a concrete
Product-classified record missing its `name`. -/
theorem claim1_witness : validate_data namelessProduct = Except.ok false :=
  claim1_validate_rejects_when_classified namelessProduct "uzum" (by decide)
    (Or.inr (Or.inr (Or.inl rfl))) (Or.inl (Or.inl (by decide)))

/-- Counterexample to C5: Uzum's `_parse_price` turns the comma of
`"199,90"` into a space and so reads 19990, not 199.90; Wildberries's
`_parse_price` divides by 100 and so maps `"1 299 ₽"` to 12.99, not
1299.0. -/
theorem claim5_counterexample :
    uzum_parse_price "199,90" = 19990 ∧ ((19990 : ℚ) ≠ 1999 / 10)
      ∧ wb_parse_price "1 299 ₽" = 1299 / 100 ∧ ((1299 / 100 : ℚ) ≠ 1299) := by
  refine ⟨by decide, by norm_num, ?_, by norm_num⟩
  have h : pyFloatRepr "1299" = some (false, 1299, 0, 0) := by decide
  rw [show wb_parse_price "1 299 ₽"
      = (match pyFloat "1299" with
         | some q => q / 100
         | Option.none => 0) from rfl]
  rw [pyFloat, h]
  norm_num [ratOfRepr]

/-- C5 (amended): on the two spec inputs the three price heuristics
give — Ozon: 1299.0 and 199.90 (the claimed values); Wildberries:
12.99 and 199.90 (it strips the comma and divides by 100); Uzum:
1299.0 and 19990.0 (it treats the comma as a thousands separator). -/
theorem claim5_price_heuristics :
    ozon_parse_price "1 299 ₽" = 1299
      ∧ ozon_parse_price "199,90" = 1999 / 10
      ∧ wb_parse_price "1 299 ₽" = 1299 / 100
      ∧ wb_parse_price "199,90" = 1999 / 10
      ∧ uzum_parse_price "1 299 ₽" = 1299
      ∧ uzum_parse_price "199,90" = 19990 := by
  have h1 : pyFloatRepr "199.90" = some (false, 199, 90, 2) := by decide
  have h2 : pyFloatRepr "1299" = some (false, 1299, 0, 0) := by decide
  have h3 : pyFloatRepr "19990" = some (false, 19990, 0, 0) := by decide
  refine ⟨by decide, ?_, ?_, ?_, by decide, by decide⟩
  · rw [show ozon_parse_price "199,90" = (pyFloat "199.90").getD 0 from rfl]
    rw [pyFloat, h1]
    norm_num [ratOfRepr]
  · rw [show wb_parse_price "1 299 ₽"
        = (match pyFloat "1299" with
           | some q => q / 100
           | Option.none => 0) from rfl]
    rw [pyFloat, h2]
    norm_num [ratOfRepr]
  · rw [show wb_parse_price "199,90"
        = (match pyFloat "19990" with
           | some q => q / 100
           | Option.none => 0) from rfl]
    rw [pyFloat, h3]
    norm_num [ratOfRepr]

/-- C3: `_make_request` never propagates an exception — the checked
run always returns `ok`; a 498 response is handed back to the caller
unraised; in fact every received response is returned (via
`raise_for_status` + the `HTTPError` handler that surfaces the
attached response), and a network error yields `None`. -/
theorem claim3_make_request_total :
    (∀ o : ReqOutcome, make_request_checked o = Except.ok (make_request o))
      ∧ (∀ r : HttpResponse, r.status = 498 →
          make_request (ReqOutcome.got r) = some r)
      ∧ (∀ r : HttpResponse, make_request (ReqOutcome.got r) = some r)
      ∧ make_request ReqOutcome.netError = Option.none := by
  refine ⟨?_, ?_, ?_, rfl⟩
  · intro o
    cases o with
    | got r =>
      by_cases hb : r.status ≠ 498 ∧ 400 ≤ r.status <;>
        simp [make_request_checked, make_request, make_request_body, hb]
    | netError => rfl
  · intro r h
    simp [make_request, make_request_body, h]
  · intro r
    by_cases hb : r.status ≠ 498 ∧ 400 ≤ r.status <;>
      simp [make_request, make_request_body, hb]

/-- Witness for C3: a concrete 498 response is returned to the caller. -/
theorem claim3_witness :
    make_request (ReqOutcome.got ⟨498, "soft block"⟩) = some ⟨498, "soft block"⟩ :=
  claim3_make_request_total.2.1 ⟨498, "soft block"⟩ rfl

theorem pyLimit_pos {α : Type} (l : List α) {n : Int} (h : 1 ≤ n) :
    pyLimit l (some n) = l.take n.toNat := by
  rw [pyLimit, if_pos (by omega), pySliceStop, if_pos (by omega)]

theorem pyLimit_zero {α : Type} (l : List α) : pyLimit l (some 0) = l := by
  simp [pyLimit]

/-- C10: for a positive limit `n`, `parse_search` and
`search_organizations` return a prefix of the unlimited result of
length at most `n`; `limit = 0` is falsy and, like `None`, performs no
truncation. -/
theorem claim10_limit_truncation :
    ∀ (α : Type) (extract : String → List α) (extract2 : String → String → List α)
      (q : String) (o : ReqOutcome) (n : Int),
      (1 ≤ n →
        mp_parse_search extract o (some n) <+: mp_parse_search extract o Option.none
          ∧ (mp_parse_search extract o (some n)).length ≤ n.toNat
          ∧ maps_search_organizations extract2 q o (some n)
              <+: maps_search_organizations extract2 q o Option.none
          ∧ (maps_search_organizations extract2 q o (some n)).length ≤ n.toNat)
      ∧ mp_parse_search extract o (some 0) = mp_parse_search extract o Option.none
      ∧ maps_search_organizations extract2 q o (some 0)
          = maps_search_organizations extract2 q o Option.none := by
  intro α extract extract2 q o n
  refine ⟨?_, ?_, ?_⟩
  · intro hn
    cases ho : make_request o with
    | none =>
      simp only [mp_parse_search, maps_search_organizations, ho]
      exact ⟨ List.nil_prefix, by simp, List.nil_prefix, by simp⟩
    | some r =>
      simp only [mp_parse_search, maps_search_organizations, ho, pyLimit_pos _ hn]
      exact ⟨ List.take_prefix .., List.length_take_le .., List.take_prefix ..,
        List.length_take_le ..⟩
  · cases ho : make_request o with
    | none => simp [mp_parse_search, ho]
    | some r => simp only [mp_parse_search, ho, pyLimit_zero]; rfl
  · cases ho : make_request o with
    | none => simp [maps_search_organizations, ho]
    | some r => simp only [maps_search_organizations, ho, pyLimit_zero]; rfl

/-- Witness for C10: three extracted records, limit 2 — the result is
the two-element prefix; limit 0 returns all three. -/
theorem claim10_witness :
    mp_parse_search (fun _ => ["a", "b", "c"]) (ReqOutcome.got ⟨200, "x"⟩) (some 2)
        <+: mp_parse_search (fun _ => ["a", "b", "c"]) (ReqOutcome.got ⟨200, "x"⟩) Option.none
      ∧ (mp_parse_search (fun _ => ["a", "b", "c"]) (ReqOutcome.got ⟨200, "x"⟩) (some 2)).length ≤ 2
      ∧ mp_parse_search (fun _ => ["a", "b", "c"]) (ReqOutcome.got ⟨200, "x"⟩) (some 0)
          = mp_parse_search (fun _ => ["a", "b", "c"]) (ReqOutcome.got ⟨200, "x"⟩) Option.none := by
  have h := claim10_limit_truncation String (fun _ => ["a", "b", "c"])
    (fun _ _ => []) "q" (ReqOutcome.got ⟨200, "x"⟩) 2
  exact ⟨(h.1 (by norm_num)).1, (h.1 (by norm_num)).2.1, h.2.1⟩

/-- A document whose first Uzum locator (div.product-card) matches
nothing while the second (div[data-product-id]) yields one card. -/
def uzumFallbackDoc : Node :=
  Node.elem "[document]" [] [] (nodL
    [Node.elem "div" [("data-product-id", "5")] [] (nodL
      [Node.elem "h3" [] [] (nodL [Node.text "Test Product"]),
       Node.elem "a" [("href", "/product/5")] [] (nodL [Node.text "open"])])])

/-- A document whose first Wildberries locator (article.product-card)
matches nothing while the second (div.product-card) yields one card. -/
def wbFallbackDoc : Node :=
  Node.elem "[document]" [] [] (nodL
    [Node.elem "div" [] ["product-card"] (nodL [Node.text "hi"])])

/-- C2: the locator cascade takes exactly the first locator set that
yields one or more candidates — in general (any number of leading
empty locator results), and specifically for the Uzum and Wildberries
cascades when locator 1 is empty and locator 2 is not: the chosen
candidates are exactly locator 2's, and the extraction output is the
processing of exactly those candidates, with no later locator merged
in. -/
theorem claim2_first_locator_wins :
    (∀ (ls1 : List (List Node)) (l : List Node) (ls2 : List (List Node)),
      (∀ x ∈ ls1, x = []) → l ≠ [] → firstNonEmpty (ls1 ++ l :: ls2) = l)
      ∧ (∀ doc : Node,
          doc.findAll ⟨some "div", [], ClassCond.eqClass "product-card"⟩ = [] →
          doc.findAll ⟨some "div", ["data-product-id"], ClassCond.anyClass⟩ ≠ [] →
          uzumCardsFromSelectors doc
              = doc.findAll ⟨some "div", ["data-product-id"], ClassCond.anyClass⟩
            ∧ uzum_extract_products doc
              = uzum_process_cards
                  (doc.findAll ⟨some "div", ["data-product-id"], ClassCond.anyClass⟩))
      ∧ (∀ doc : Node,
          doc.findAll ⟨some "article", [], ClassCond.eqClass "product-card"⟩ = [] →
          doc.findAll ⟨some "div", [], ClassCond.eqClass "product-card"⟩ ≠ [] →
          wbCardsFromSelectors doc
              = doc.findAll ⟨some "div", [], ClassCond.eqClass "product-card"⟩
            ∧ wb_product_cards doc
              = doc.findAll ⟨some "div", [], ClassCond.eqClass "product-card"⟩) := by
  refine ⟨firstNonEmpty_eq, ?_, ?_⟩
  · intro doc h1 h2
    have hsel : uzumCardsFromSelectors doc
        = doc.findAll ⟨some "div", ["data-product-id"], ClassCond.anyClass⟩ := by
      rw [uzumCardsFromSelectors, uzumSelectorResults]
      exact firstNonEmpty_eq [doc.findAll ⟨some "div", [], ClassCond.eqClass "product-card"⟩]
        _ _ (by intro x hx; simp only [List.mem_singleton] at hx; rw [hx, h1]) h2
    refine ⟨hsel, ?_⟩
    rw [uzum_extract_products, uzumProductCards]
    try dsimp only
    rw [hsel, if_pos (by simp [List.isEmpty_iff, h2])]
  · intro doc h1 h2
    have hsel : wbCardsFromSelectors doc
        = doc.findAll ⟨some "div", [], ClassCond.eqClass "product-card"⟩ := by
      rw [wbCardsFromSelectors, wbSelectorResults]
      exact firstNonEmpty_eq [doc.findAll ⟨some "article", [], ClassCond.eqClass "product-card"⟩]
        _ _ (by intro x hx; simp only [List.mem_singleton] at hx; rw [hx, h1]) h2
    refine ⟨hsel, ?_⟩
    rw [wb_product_cards]
    try dsimp only
    rw [hsel, if_pos (by simp [List.isEmpty_iff, h2])]

/-- Witness for C2: on the two concrete documents, locator 1 is empty,
locator 2 is not, and the cascades pick exactly locator 2's cards. -/
theorem claim2_witness :
    uzumFallbackDoc.findAll ⟨some "div", [], ClassCond.eqClass "product-card"⟩ = []
      ∧ uzumFallbackDoc.findAll ⟨some "div", ["data-product-id"], ClassCond.anyClass⟩ ≠ []
      ∧ uzumCardsFromSelectors uzumFallbackDoc
          = uzumFallbackDoc.findAll ⟨some "div", ["data-product-id"], ClassCond.anyClass⟩
      ∧ uzum_extract_products uzumFallbackDoc
          = uzum_process_cards
              (uzumFallbackDoc.findAll ⟨some "div", ["data-product-id"], ClassCond.anyClass⟩)
      ∧ wbCardsFromSelectors wbFallbackDoc
          = wbFallbackDoc.findAll ⟨some "div", [], ClassCond.eqClass "product-card"⟩ := by
  have h1 : uzumFallbackDoc.findAll ⟨some "div", [], ClassCond.eqClass "product-card"⟩ = [] := rfl
  have h2 : uzumFallbackDoc.findAll ⟨some "div", ["data-product-id"], ClassCond.anyClass⟩ ≠ [] := by
    intro h
    exact List.cons_ne_nil _ _
      ((rfl : uzumFallbackDoc.findAll ⟨some "div", ["data-product-id"], ClassCond.anyClass⟩
        = _) ▸ h)
  have h3 : wbFallbackDoc.findAll ⟨some "article", [], ClassCond.eqClass "product-card"⟩ = [] := rfl
  have h4 : wbFallbackDoc.findAll ⟨some "div", [], ClassCond.eqClass "product-card"⟩ ≠ [] := by
    intro h
    exact List.cons_ne_nil _ _
      ((rfl : wbFallbackDoc.findAll ⟨some "div", [], ClassCond.eqClass "product-card"⟩ = _) ▸ h)
  obtain ⟨hu1, hu2⟩ := claim2_first_locator_wins.2.1 uzumFallbackDoc h1 h2
  obtain ⟨hw1, _⟩ := claim2_first_locator_wins.2.2 wbFallbackDoc h3 h4
  exact ⟨h1, h2, hu1, hu2, hw1⟩

/-- A card whose link genuinely points at the search path. -/
def uzumCardRealLink : Node :=
  Node.elem "div" [] [] (nodL
    [Node.elem "h3" [] [] (nodL [Node.text "Apple iPhone 15"]),
     Node.elem "a" [("href", "/ru/search?query=Apple%20iPhone%2015")] [] (nodL [])])

/-- A card with the same name and no link at all. -/
def uzumCardNoLink : Node :=
  Node.elem "div" [] [] (nodL
    [Node.elem "h3" [] [] (nodL [Node.text "Apple iPhone 15"])])

/-- The one record both cards extract to. -/
def uzumProdShared : UzumProd :=
  ⟨Option.none, "Apple iPhone 15", Option.none, 0, 0, 0,
   "https://uzum.uz/ru/search?query=Apple%20iPhone%2015", "", "uzum"⟩

/-- Counterexample to C6: a card with a genuine extracted link to the
search path and a card that received the synthetic fallback URL
produce byte-for-byte identical records — no flag distinguishes the
substitution, so no consumer of the record can tell them apart. -/
theorem claim6_counterexample :
    uzum_extract_product_from_card uzumCardRealLink = some uzumProdShared
      ∧ uzum_extract_product_from_card uzumCardNoLink = some uzumProdShared
      ∧ (uzumCardRealLink.find1 aHrefQ).isSome = true
      ∧ uzumCardNoLink.find1 aHrefQ = Option.none
      ∧ uzumProdShared.url = uzumSynthUrl "Apple iPhone 15" := by
  exact ⟨by decide, by decide, rfl, rfl, by decide⟩

/-- C6 (amended): when a card has no extractable link (`find('a',
href=True)` comes up empty) and the extraction succeeds, the record's
URL is the stripped synthetic search-query URL built from the
extracted name, and it is never empty.  However, the substitution is
not recorded: no field distinguishes it from a genuine link (see the
counterexample). -/
theorem claim6_url_fallback :
    ∀ (card : Node) (p : UzumProd),
      uzum_extract_product_from_card card = some p →
      card.find1 aHrefQ = Option.none →
      p.url = pyStrip (uzumSynthUrl (uzumName card)) ∧ p.url ≠ "" := by
  intro card p hp hlink
  rw [uzum_extract_product_from_card] at hp
  split at hp
  · exact absurd hp (by simp)
  · have hurl : uzumUrl card (uzumName card) = uzumSynthUrl (uzumName card) := by
      rw [uzumUrl, uzumUrlRaw, hlink]
      rfl
    have hu2 : some (pyStrip (uzumUrl card (uzumName card))) = some p.url :=
      congrArg (fun o => Option.map UzumProd.url o) hp
    have hu : p.url = pyStrip (uzumSynthUrl (uzumName card)) := by
      rw [← hurl]
      exact (Option.some.inj hu2).symm
    refine ⟨hu, ?_⟩
    rw [hu]
    have hmem : 'h' ∈ (uzumSynthUrl (uzumName card)).data := by
      rw [uzumSynthUrl]
      simp only [String.data_append]
      exact List.mem_append.mpr (Or.inl (List.mem_append.mpr (Or.inl (by decide))))
    exact pyStrip_ne_empty hmem (by decide)

/-- Witness for C6: the no-link card receives the stripped synthetic
search URL, which is non-empty. -/
theorem claim6_witness :
    uzumProdShared.url = pyStrip (uzumSynthUrl (uzumName uzumCardNoLink))
      ∧ uzumProdShared.url ≠ "" :=
  claim6_url_fallback uzumCardNoLink uzumProdShared (by decide) rfl

/-- The C7 counterexample card: a price-classed element whose text has
no digit, next to card text containing a large number. -/
def uzumPriceCexCard : Node :=
  Node.elem "div" [] [] (nodL
    [Node.elem "span" [] ["price"] (nodL [Node.text "Цена"]),
     Node.text "5000 сум"])

/-- Counterexample to C7: on this card every price selector yields
digit-free text ("Цена"), the largest long number in the card text is
5000 > 1000, and yet the extracted price is 0 — the fallback is
skipped because the selector loop left a non-empty, non-`'0'` text. -/
theorem claim7_counterexample :
    uzumPriceText uzumPriceCexCard = "Цена"
      ∧ hasDigit "Цена" = false
      ∧ (uzumBigNums uzumPriceCexCard).max? = some 5000
      ∧ (1000 : Nat) < 5000
      ∧ uzum_parse_price (uzumPriceTextFinal uzumPriceCexCard) = 0
      ∧ (0 : ℚ) ≠ 5000 := by
  exact ⟨by decide, by decide, by decide, by decide, by decide, by decide⟩

/-- C7 (amended): the extracted price is always
`_parse_price(final price text)`; when the selector cascade ends with
`'0'` or an empty text, the final price is the largest match of
`\d+[\s,]*\d*` longer than 3 characters in the raw card text provided
it exceeds 1000, and 0 otherwise; when the cascade ends with any other
text (even a digit-free one), the fallback is not entered and that
text is parsed as the price. -/
theorem claim7_price_fallback :
    (∀ (card : Node) (p : UzumProd),
      uzum_extract_product_from_card card = some p →
      p.price = uzum_parse_price (uzumPriceTextFinal card))
      ∧ (∀ card : Node,
          (uzumPriceText card = "0" ∨ uzumPriceText card = "") →
          uzum_parse_price (uzumPriceTextFinal card)
            = (match (uzumBigNums card).max? with
               | some m => if 1000 < m then (m : ℚ) else 0
               | Option.none => 0))
      ∧ (∀ card : Node,
          ¬(uzumPriceText card = "0" ∨ uzumPriceText card = "") →
          uzumPriceTextFinal card = uzumPriceText card) := by
  refine ⟨?_, ?_, ?_⟩
  · intro card p hp
    rw [uzum_extract_product_from_card] at hp
    split at hp
    · exact absurd hp (by simp)
    · have hpr := congrArg (fun o => Option.map UzumProd.price o) hp
      exact (Option.some.inj hpr).symm
  · intro card h
    have hcond : (uzumPriceText card = "" || uzumPriceText card = "0") = true := by
      rcases h with h | h <;> simp [h]
    rw [uzumPriceTextFinal, if_pos hcond]
    cases hmax : (uzumBigNums card).max? with
    | none =>
      rcases h with h | h <;> rw [h] <;> decide
    | some m =>
      dsimp only
      by_cases hm : 1000 < m
      · rw [if_pos hm, if_pos (by exact hm), uzum_parse_price_strOfNat]
      · rw [if_neg hm, if_neg (by exact hm)]
        rcases h with h | h <;> rw [h] <;> decide
  · intro card h
    push_neg at h
    rw [uzumPriceTextFinal, if_neg (by simp [h.1, h.2])]

/-- The C7 witness card: no price-classed element at all, card text
containing 2500. -/
def uzumPriceWitnessCard : Node :=
  Node.elem "div" [] [] (nodL
    [Node.elem "h3" [] [] (nodL [Node.text "Sample Phone"]),
     Node.text "2500 сум"])

/-- Witness for C7: with no price element, the fallback picks 2500
(the largest long number, above the threshold), and the extracted
record carries exactly that price. -/
theorem claim7_witness :
    uzumPriceText uzumPriceWitnessCard = "0"
      ∧ uzum_parse_price (uzumPriceTextFinal uzumPriceWitnessCard) = 2500
      ∧ (∀ p, uzum_extract_product_from_card uzumPriceWitnessCard = some p →
          p.price = uzum_parse_price (uzumPriceTextFinal uzumPriceWitnessCard)) := by
  refine ⟨rfl, ?_, ?_⟩
  · have h := claim7_price_fallback.2.1 uzumPriceWitnessCard (Or.inl rfl)
    rw [h]
    decide
  · intro p hp
    exact claim7_price_fallback.1 uzumPriceWitnessCard p hp

/-- A document with no tags at all. -/
def plainTextDoc : Node :=
  Node.elem "[document]" [] [] (nodL [Node.text "hello"])

/-- A card with no usable name (the extraction returns the empty
dictionary for it). -/
def uzumMalformedCard : Node :=
  Node.elem "div" [] [] (nodL [])

/-- An arbitrary concrete search-result node. -/
def twogisSampleResult : Node :=
  Node.elem "div" [("data-id", "9")] [] (nodL [])

/-- C8: extraction never propagates an exception and degrades to
empty results — every 2GIS per-result step (including the
`validate_data` call, the one raise-capable operation not locally
handled) returns `ok`; a document with zero candidate containers
yields `[]` for both extractors; and a card whose extraction fails is
skipped without aborting the rest of the loop. -/
theorem claim8_extraction_total :
    (∀ r : Node, (twogis_extract_org_e r).isOk = true)
      ∧ (∀ doc : Node, twogisSearchResults doc = [] →
          twogis_extract_organizations doc = [])
      ∧ (∀ doc : Node, uzumProductCards doc = [] → uzum_extract_products doc = [])
      ∧ (∀ (c : Node) (cs : List Node),
          uzum_extract_product_from_card c = Option.none →
          uzum_process_cards (c :: cs) = uzum_process_cards cs) := by
  refine ⟨twogis_extract_org_e_isOk, ?_, ?_, ?_⟩
  · intro doc h
    rw [twogis_extract_organizations, h]
    rfl
  · intro doc h
    rw [uzum_extract_products, h]
    rfl
  · intro c cs h
    rw [uzum_process_cards, uzum_process_cards, List.foldl_cons, h]

/-- Witness for C8: a tag-free document yields `[]` from both
extractors; a nameless card is skipped; a concrete result node's step
is `ok`. -/
theorem claim8_witness :
    (twogis_extract_org_e twogisSampleResult).isOk = true
      ∧ twogisSearchResults plainTextDoc = []
      ∧ twogis_extract_organizations plainTextDoc = []
      ∧ uzumProductCards plainTextDoc = []
      ∧ uzum_extract_products plainTextDoc = []
      ∧ uzum_extract_product_from_card uzumMalformedCard = Option.none
      ∧ uzum_process_cards [uzumMalformedCard] = uzum_process_cards [] := by
  refine ⟨claim8_extraction_total.1 twogisSampleResult, rfl,
    claim8_extraction_total.2.1 plainTextDoc rfl, rfl,
    claim8_extraction_total.2.2.1 plainTextDoc rfl, rfl,
    claim8_extraction_total.2.2.2 uzumMalformedCard [] rfl⟩

/-- A document from which one product is extracted. -/
def c9Doc : Node :=
  Node.elem "[document]" [] [] (nodL
    [Node.elem "article" [] [] (nodL
      [Node.elem "h3" [] [] (nodL [Node.text "Sample Item"])])])

/-- Counterexample to C9: the same fetched document run through the
pipeline at two different wall-clock instants yields canonical record
lists that are *not* identical field-for-field — `parsed_at` is
stamped by `datetime.now` at model construction — although every
other field agrees. -/
theorem claim9_counterexample :
    pipeline_to_canonical 0 c9Doc ≠ pipeline_to_canonical 1 c9Doc
      ∧ pipeline_to_canonical 0 c9Doc ≠ []
      ∧ (pipeline_to_canonical 0 c9Doc).map eraseTime
          = (pipeline_to_canonical 1 c9Doc).map eraseTime := by
  exact ⟨by decide, by decide, by decide⟩

/-- C9 (amended): extraction itself is deterministic — it reads
neither the wall clock nor any randomness, so its output is
independent of the ambient interpreter environment — and two pipeline
runs over the identical document agree on every canonical-record
field except the `parsed_at` construction timestamp. -/
theorem claim9_determinism :
    (∀ (e1 e2 : PyEnv) (doc : Node),
      uzum_extract_products_env e1 doc = uzum_extract_products_env e2 doc)
      ∧ (∀ (t1 t2 : Nat) (doc : Node),
          (pipeline_to_canonical t1 doc).map eraseTime
            = (pipeline_to_canonical t2 doc).map eraseTime) := by
  refine ⟨fun e1 e2 doc => rfl, ?_⟩
  intro t1 t2 doc
  rw [pipeline_to_canonical, pipeline_to_canonical, List.map_filterMap,
    List.map_filterMap]
  have hfn : (fun p => (validate_and_normalize_product t1 p).map eraseTime)
      = (fun p => (validate_and_normalize_product t2 p).map eraseTime) :=
    funext (normalize_eraseTime t1 t2)
  rw [hfn]

/-- C4: every retry loop is finitely bounded by the constants the
source configures — the session retry policy is `total=3` over exactly
the forcelist `{429, 500, 502, 503, 504}`, a transport send makes at
most `retry_total + 1` requests and re-sends only after a forcelist
status; `parse_search` runs at most `max_retries = 3` API attempts and
`web_max_retries = 2` web attempts; and when no attempt ever sees a
200 response the search returns the empty list instead of looping. -/
theorem claim4_bounded_retries :
    retry_total = 3
      ∧ status_forcelist = [429, 500, 502, 503, 504]
      ∧ (∀ rs : Nat → HttpResponse, (sessionSend rs).1 ≤ retry_total + 1)
      ∧ (∀ (rs : Nat → HttpResponse) (j : Nat), j + 1 < (sessionSend rs).1 →
          (rs j).status ∈ status_forcelist)
      ∧ wb_max_retries = 3
      ∧ wb_web_max_retries = 2
      ∧ (∀ (α : Type) (extract : String → List α)
          (shardInfo : String → Option (String × Nat)) (oracle : Nat → ReqOutcome)
          (limit : Option Int),
          (wb_parse_search extract shardInfo oracle limit).apiAttempts ≤ wb_max_retries
            ∧ (wb_parse_search extract shardInfo oracle limit).webAttempts
                ≤ wb_web_max_retries)
      ∧ (∀ (α : Type) (extract : String → List α)
          (shardInfo : String → Option (String × Nat)) (oracle : Nat → ReqOutcome)
          (limit : Option Int),
          (∀ n r, oracle n = ReqOutcome.got r → r.status ≠ 200) →
          (wb_parse_search extract shardInfo oracle limit).result = []) := by
  refine ⟨rfl, rfl, ?_, ?_, rfl, rfl, ?_, ?_⟩
  · intro rs
    have hcount := retryLoop_count rs retry_total 0
    rw [sessionSend]
    omega
  · intro rs j hj
    exact retryLoop_forcelist rs retry_total 0 j (Nat.zero_le j) hj
  · intro α extract shardInfo oracle limit
    have hapi := wb_api_loop_iters extract shardInfo oracle limit wb_max_retries 0 0
    rw [wb_parse_search]
    rcases hx : wb_api_loop extract shardInfo oracle limit wb_max_retries 0 0 with
      ⟨p, k, iters⟩
    rw [hx] at hapi
    simp only at hapi
    cases p with
    | some products =>
      dsimp only
      constructor
      · simpa using hapi
      · simp [wb_web_max_retries]
    | none =>
      dsimp only
      constructor
      · simpa using hapi
      · have hweb := wb_web_loop_iters extract oracle limit wb_web_max_retries k 0
        simpa using hweb
  · intro α extract shardInfo oracle limit h200
    have hapi := wb_api_loop_no200 extract shardInfo oracle limit h200 wb_max_retries 0 0
    rw [wb_parse_search]
    rcases hx : wb_api_loop extract shardInfo oracle limit wb_max_retries 0 0 with
      ⟨p, k, iters⟩
    rw [hx] at hapi
    simp only at hapi
    subst hapi
    dsimp only
    exact wb_web_loop_no200 extract oracle limit h200 wb_web_max_retries k 0

/-- Witness for C4: with a transport that always fails at the network
level, the search returns `[]`; with a server that always answers 500,
every retried request was triggered by a forcelist status. -/
theorem claim4_witness :
    (wb_parse_search (fun _ => ([] : List Nat)) (fun _ => Option.none)
        (fun _ => ReqOutcome.netError) Option.none).result = []
      ∧ (0 : Nat) + 1 < (sessionSend (fun _ => ⟨500, "err"⟩)).1
      ∧ ((fun _ => (⟨500, "err"⟩ : HttpResponse)) 0).status ∈ status_forcelist := by
  refine ⟨?_, by decide, ?_⟩
  · exact claim4_bounded_retries.2.2.2.2.2.2.2 Nat (fun _ => [])
      (fun _ => Option.none) (fun _ => ReqOutcome.netError) Option.none
      (fun n r h => ReqOutcome.noConfusion h)
  · exact claim4_bounded_retries.2.2.2.1 (fun _ => ⟨500, "err"⟩) 0 (by decide)
